import Mathlib

/-!
# Verification of the astral-echo tick-driven probe simulation

Shallow embedding of the game core of the `astral-echo` repository:
the entity store (`src/game/core/game-state.ts`), the action executors
(`src/game/tasks/probe-action-tasks.ts`, `src/game/tasks/probe-state-tasks.ts`)
and the tick scheduler (`runSimulation`).

Modelling conventions:
* JavaScript numbers are modelled as exact rationals (`ℚ`); the only
  irrational operation, `Math.sqrt` inside `calculateDistance`, is modelled
  with `Real.sqrt`, so distances live in `ℝ`.  Floating-point rounding is
  not modelled.
* A JavaScript object used as a string-keyed map is modelled as an
  association list `List (String × α)`; assignment `m[k] = v` replaces the
  value in place when the key exists and appends otherwise, preserving
  JavaScript's insertion order for `Object.values`.
* `throw new Error(...)` is modelled with `Except.error`; a task's normal
  return value (the `BaseTaskOutputSchema` envelope) is `Except.ok`,
  carrying the output together with the store state after the call.
* Wall-clock timestamps (`Date.now()`), log output and on-disk persistence
  are outside the model; experience records keep only their event tag.
* Error `reason` strings are modelled by the tag that starts them
  (for example `"too_far, max distance is 1.0, ..."` becomes `.too_far`).
-/

open scoped Classical

/-! ## Data model (src/game/core/types.ts) -/

structure Resources where
  energy : ℚ
  metal : ℚ
  silicon : ℚ
  hydrogen : ℚ
  rare_elements : ℚ
deriving Repr, DecidableEq

structure Position where
  x : ℚ
  y : ℚ
  z : ℚ
deriving Repr, DecidableEq

inductive ProbeStatus where
  | active
  | traveling
  | harvesting
  | manufacturing
  | replicating
  | damaged
  | destroyed
deriving Repr, DecidableEq

inductive CelestialBodyType where
  | star
  | planet
  | asteroid
  | gas_giant
  | moon
  | asteroid_belt
deriving Repr, DecidableEq

/-- One probe experience record.  The source stores a wall-clock timestamp
and a free-form JSON payload next to the event tag; only the tag is
modelled. -/
structure Experience where
  event : String
deriving Repr, DecidableEq

structure ProbeMemory where
  visitedSystems : List String
  discoveredResources : List (String × Resources)
  knownProbes : List String
  experiences : List Experience
deriving Repr, DecidableEq

structure ProbeCapabilities where
  maxSpeed : ℚ
  harvestRate : ℚ
  sensorRange : ℚ
  communicationRange : ℚ
  storageCapacity : ℚ
deriving Repr, DecidableEq

structure Probe where
  id : String
  name : String
  status : ProbeStatus
  position : Position
  currentSystemId : String
  resources : Resources
  memory : ProbeMemory
  capabilities : ProbeCapabilities
  parentProbeId : Option String := none
  generation : ℕ
deriving Repr, DecidableEq

structure CelestialBody where
  id : String
  name : String
  type : CelestialBodyType
  position : Position
  resources : Resources
  mass : ℚ
  radius : ℚ
deriving Repr, DecidableEq

structure SolarSystem where
  id : String
  name : String
  position : Position
  star : CelestialBody
  bodies : List CelestialBody
  discoveredBy : Option String := none
deriving Repr, DecidableEq

/-- The in-memory state held by the `GameStateManager` singleton.
`currentTime` / `gameStartedAt` are wall-clock values and not modelled. -/
structure GameState where
  probes : List (String × Probe)
  solarSystems : List (String × SolarSystem)
deriving Repr, DecidableEq

/-! ## Association-list primitives for JavaScript object maps -/

/-- `m[k] = v` on a JavaScript object: replace in place if the key exists,
append otherwise. -/
def setKey {α : Type} (l : List (String × α)) (k : String) (v : α) :
    List (String × α) :=
  if l.any (fun e => e.1 == k) then
    l.map (fun e => if e.1 == k then (k, v) else e)
  else
    l ++ [(k, v)]

/-- `m[k]` on a JavaScript object (reading). -/
def getKey {α : Type} (l : List (String × α)) (k : String) : Option α :=
  (l.find? (fun e => e.1 == k)).map (fun e => e.2)

/-! ## Entity store operations (src/game/core/game-state.ts) -/

def getProbe (s : GameState) (probeId : String) : Option Probe :=
  getKey s.probes probeId

/-- `updateProbe(probeId, updates)`: merge partial fields into the stored
record when the probe exists, otherwise log an error and do nothing.  The
partial-field object of each call site is modelled as the update function
`updates`. -/
def updateProbe (s : GameState) (probeId : String) (updates : Probe → Probe) :
    GameState :=
  match getKey s.probes probeId with
  | some probe => { s with probes := setKey s.probes probeId (updates probe) }
  | none => s

def addProbe (s : GameState) (probe : Probe) : GameState :=
  { s with probes := setKey s.probes probe.id probe }

def getSolarSystem (s : GameState) (systemId : String) : Option SolarSystem :=
  getKey s.solarSystems systemId

def addSolarSystem (s : GameState) (system : SolarSystem) : GameState :=
  { s with solarSystems := setKey s.solarSystems system.id system }

def getAllProbes (s : GameState) : List Probe :=
  s.probes.map (fun e => e.2)

def getAllSystems (s : GameState) : List SolarSystem :=
  s.solarSystems.map (fun e => e.2)

noncomputable def calculateDistance (pos1 pos2 : Position) : ℝ :=
  Real.sqrt (((pos2.x : ℝ) - (pos1.x : ℝ)) ^ 2 +
    ((pos2.y : ℝ) - (pos1.y : ℝ)) ^ 2 +
    ((pos2.z : ℝ) - (pos1.z : ℝ)) ^ 2)

/-- The other revision of `calculateDistance` (`src/unnamed/part_007`):
the same Euclidean length, then converted from millions of km to AU by
dividing by 150. -/
noncomputable def calculateDistanceAU (pos1 pos2 : Position) : ℝ :=
  let distanceInKm := Real.sqrt (((pos2.x : ℝ) - (pos1.x : ℝ)) ^ 2 +
    ((pos2.y : ℝ) - (pos1.y : ℝ)) ^ 2 +
    ((pos2.z : ℝ) - (pos1.z : ℝ)) ^ 2)
  distanceInKm / 150

def canAffordResources (available cost : Resources) : Bool :=
  decide (cost.energy ≤ available.energy) &&
  decide (cost.metal ≤ available.metal) &&
  decide (cost.silicon ≤ available.silicon) &&
  decide (cost.hydrogen ≤ available.hydrogen) &&
  decide (cost.rare_elements ≤ available.rare_elements)

def subtractResources (from_ cost : Resources) : Resources :=
  { energy := from_.energy - cost.energy
    metal := from_.metal - cost.metal
    silicon := from_.silicon - cost.silicon
    hydrogen := from_.hydrogen - cost.hydrogen
    rare_elements := from_.rare_elements - cost.rare_elements }

def addResources (to_ amount : Resources) : Resources :=
  { energy := to_.energy + amount.energy
    metal := to_.metal + amount.metal
    silicon := to_.silicon + amount.silicon
    hydrogen := to_.hydrogen + amount.hydrogen
    rare_elements := to_.rare_elements + amount.rare_elements }

def getTotalResourceAmount (resources : Resources) : ℚ :=
  resources.energy + resources.metal + resources.silicon +
    resources.hydrogen + resources.rare_elements

/-- `addProbeExperience` (part_007 revision of the store, used by the
executors): read-modify-write append of one experience record. -/
def addProbeExperience (s : GameState) (probeId : String) (event : String) :
    GameState :=
  match getProbe s probeId with
  | some probe =>
      updateProbe s probeId (fun cur =>
        { cur with memory :=
            { probe.memory with
                experiences := probe.memory.experiences ++ [⟨event⟩] } })
  | none => s

/-! ## Constants (src/game/core/types.ts) -/

def PROBE_REPLICATION_COST : Resources :=
  { energy := 1000, metal := 500, silicon := 300, hydrogen := 200,
    rare_elements := 50 }

def BASE_PROBE_CAPABILITIES : ProbeCapabilities :=
  { maxSpeed := 1/10, harvestRate := 10, sensorRange := 50,
    communicationRange := 100, storageCapacity := 5000 }

/-! ## Seed state (`initializeGameState` in src/game/core/game-state.ts)

The fresh ids produced by `uuidv4()` are parameters. -/

def seedStarResources : Resources :=
  { energy := 999999, metal := 0, silicon := 0, hydrogen := 999999,
    rare_elements := 0 }

def seedBody1Resources : Resources :=
  { energy := 0, metal := 5000, silicon := 3000, hydrogen := 100,
    rare_elements := 200 }

def seedBody2Resources : Resources :=
  { energy := 0, metal := 3000, silicon := 6000, hydrogen := 50,
    rare_elements := 100 }

def seedBody3Resources : Resources :=
  { energy := 0, metal := 20000, silicon := 15000, hydrogen := 0,
    rare_elements := 1000 }

def initializeGameState (systemId probeId starId body1Id body2Id body3Id :
    String) : GameState :=
  let firstSystem : SolarSystem :=
    { id := systemId
      name := "Sol Prime"
      position := { x := 0, y := 0, z := 0 }
      star :=
        { id := starId, name := "Sol Prime A", type := .star
          position := { x := 0, y := 0, z := 0 }
          resources := seedStarResources
          mass := 1.989e30, radius := 695700 }
      bodies :=
        [ { id := body1Id, name := "Sol Prime I", type := .planet
            position := { x := 150, y := 0, z := 0 }
            resources := seedBody1Resources
            mass := 5.972e24, radius := 6371 },
          { id := body2Id, name := "Sol Prime II", type := .planet
            position := { x := 230, y := 0, z := 0 }
            resources := seedBody2Resources
            mass := 6.39e23, radius := 3389 },
          { id := body3Id, name := "Sol Prime Asteroid Belt",
            type := .asteroid_belt
            position := { x := 400, y := 0, z := 0 }
            resources := seedBody3Resources
            mass := 2.39e21, radius := 50000 } ]
      discoveredBy := some probeId }
  let firstProbe : Probe :=
    { id := probeId
      name := "Genesis"
      status := .active
      position := { x := 150, y := 0, z := 0 }
      currentSystemId := systemId
      resources :=
        { energy := 1000, metal := 100, silicon := 100, hydrogen := 100,
          rare_elements := 10 }
      memory :=
        { visitedSystems := [systemId]
          discoveredResources := [(systemId, seedBody1Resources)]
          knownProbes := []
          experiences := [⟨"probe_awakened"⟩] }
      capabilities := BASE_PROBE_CAPABILITIES
      parentProbeId := none
      generation := 0 }
  { probes := [(probeId, firstProbe)]
    solarSystems := [(systemId, firstSystem)] }

/-! ## Task output envelope (`BaseTaskOutputSchema`) -/

/-- Tag that starts the `reason` string of a typed task failure. -/
inductive FailReason where
  | insufficient_energy
  | too_far
  | storage_full
  | out_of_range
  | insufficient_resources
deriving Repr, DecidableEq

structure TaskError where
  reason : FailReason
deriving Repr, DecidableEq

structure TaskOutput (α : Type) where
  success : Bool
  data : Option α
  error : Option TaskError
deriving Repr

/-! ## Action executors (src/game/tasks/probe-action-tasks.ts) -/

structure TravelData where
  distance : ℝ
  energyUsed : ℤ
  travelTime : ℤ
  newPosition : Position

/-- `travel-to-position`.  `Math.ceil` is `Int.ceil` on the real distance. -/
noncomputable def travelToPosition (s : GameState) (probeId : String)
    (targetPosition : Position) :
    Except String (TaskOutput TravelData × GameState) :=
  match getProbe s probeId with
  | none => .error "Probe not found"
  | some probe =>
    let distance := calculateDistance probe.position targetPosition
    let travelTime : ℤ := ⌈distance / (probe.capabilities.maxSpeed : ℝ)⌉
    let energyCost : ℤ := ⌈distance * 2⌉
    if probe.resources.energy < (energyCost : ℚ) then
      .ok ({ success := false, data := none,
             error := some ⟨.insufficient_energy⟩ }, s)
    else
      let s1 := updateProbe s probeId (fun p =>
        { p with
            status := .traveling
            position := targetPosition
            resources := subtractResources probe.resources
              { energy := (energyCost : ℚ), metal := 0, silicon := 0,
                hydrogen := 0, rare_elements := 0 } })
      let s2 := addProbeExperience s1 probeId "travel_completed"
      let s3 := updateProbe s2 probeId (fun p => { p with status := .active })
      .ok ({ success := true
             data := some ⟨distance, energyCost, travelTime, targetPosition⟩
             error := none }, s3)

structure HarvestData where
  harvestedResources : Resources
  duration : ℚ
  remainingOnBody : Resources
deriving Repr, DecidableEq

/-- The per-field extraction `min(harvestRate × duration, remaining stock)`
computed by `harvest-resources`. -/
def actualHarvestOf (harvestAmount : ℚ) (stock : Resources) : Resources :=
  { energy := min harvestAmount stock.energy
    metal := min harvestAmount stock.metal
    silicon := min harvestAmount stock.silicon
    hydrogen := min harvestAmount stock.hydrogen
    rare_elements := min harvestAmount stock.rare_elements }

/-- `harvest-resources`. -/
noncomputable def harvestResources (s : GameState)
    (probeId targetBodyId : String) (duration : ℚ) :
    Except String (TaskOutput HarvestData × GameState) :=
  match getProbe s probeId with
  | none => .error "Probe not found"
  | some probe =>
    match getSolarSystem s probe.currentSystemId with
    | none => .error "Solar system not found"
    | some currentSystem =>
      match currentSystem.bodies.find? (fun b => b.id == targetBodyId) with
      | none => .error "Celestial body not found"
      | some targetBody =>
        let distance := calculateDistance probe.position targetBody.position
        if distance > 1 then
          .ok ({ success := false, data := none,
                 error := some ⟨.too_far⟩ }, s)
        else
          let harvestAmount := probe.capabilities.harvestRate * duration
          let actualHarvest := actualHarvestOf harvestAmount targetBody.resources
          let totalHarvested := getTotalResourceAmount actualHarvest
          let currentTotal := getTotalResourceAmount probe.resources
          if currentTotal + totalHarvested > probe.capabilities.storageCapacity
          then
            .ok ({ success := false, data := none,
                   error := some ⟨.storage_full⟩ }, s)
          else
            let s1 := updateProbe s probeId (fun p =>
              { p with
                  status := .harvesting
                  resources := addResources probe.resources actualHarvest })
            let updatedBody :=
              { targetBody with
                  resources := subtractResources targetBody.resources
                    actualHarvest }
            let updatedBodies := currentSystem.bodies.map (fun b =>
              if b.id == targetBody.id then updatedBody else b)
            let s2 := addSolarSystem s1
              { currentSystem with bodies := updatedBodies }
            let s3 := addProbeExperience s2 probeId "resources_harvested"
            let s4 := updateProbe s3 probeId (fun p =>
              { p with status := .active })
            .ok ({ success := true
                   data := some ⟨actualHarvest, duration,
                     updatedBody.resources⟩
                   error := none }, s4)

structure ManufactureData where
  newProbeId : String
  newProbeName : String
  generation : ℕ
  resourcesUsed : Resources
deriving Repr, DecidableEq

/-- The fixed starting inventory of a manufactured child probe. -/
def CHILD_START_RESOURCES : Resources :=
  { energy := 500, metal := 50, silicon := 50, hydrogen := 50,
    rare_elements := 5 }

/-- `manufacture-probe`.  The fresh `uuidv4()` child id is the parameter
`newProbeId`.

JavaScript aliasing note: after the parent is updated, the source pushes
`newProbeId` onto `updatedParentProbe.memory.knownProbes` *in place*; the
memory object is shared with the stored record, so the push is visible in
the store at once (`s3` below).  `addProbeExperience` then installs a fresh
memory object with one more experience (`s4`), but the final
`updateProbe({ memory: updatedParentProbe.memory, status: "active" })`
writes the older aliased object back, so the parent's
`"probe_manufactured"` experience is dropped again (`s5`). -/
def manufactureProbe (s : GameState)
    (probeId newProbeName newProbeId : String) :
    Except String (TaskOutput ManufactureData × GameState) :=
  match getProbe s probeId with
  | none => .error "Probe not found"
  | some parentProbe =>
    if !(canAffordResources parentProbe.resources PROBE_REPLICATION_COST) then
      .ok ({ success := false, data := none,
             error := some ⟨.insufficient_resources⟩ }, s)
    else
      let newProbe : Probe :=
        { id := newProbeId
          name := newProbeName
          status := .active
          position := parentProbe.position
          currentSystemId := parentProbe.currentSystemId
          resources := CHILD_START_RESOURCES
          memory :=
            { visitedSystems := parentProbe.memory.visitedSystems
              discoveredResources := parentProbe.memory.discoveredResources
              knownProbes := parentProbe.memory.knownProbes ++ [parentProbe.id]
              experiences := [⟨"probe_manufactured"⟩] }
          capabilities := BASE_PROBE_CAPABILITIES
          parentProbeId := some parentProbe.id
          generation := parentProbe.generation + 1 }
      let s1 := updateProbe s probeId (fun p =>
        { p with
            status := .manufacturing
            resources := subtractResources parentProbe.resources
              PROBE_REPLICATION_COST })
      let s2 := addProbe s1 newProbe
      let pushedMemory :=
        { parentProbe.memory with
            knownProbes := parentProbe.memory.knownProbes ++ [newProbeId] }
      let s3 := updateProbe s2 probeId (fun p =>
        { p with memory := pushedMemory })
      let s4 := addProbeExperience s3 probeId "probe_manufactured"
      let s5 := updateProbe s4 probeId (fun p =>
        { p with memory := pushedMemory, status := .active })
      .ok ({ success := true
             data := some ⟨newProbeId, newProbeName,
               parentProbe.generation + 1, PROBE_REPLICATION_COST⟩
             error := none }, s5)

structure ScanData where
  bodyName : String
  resources : Resources
  distance : ℝ

/-- `scan-for-resources` (src/game/tasks/probe-state-tasks.ts).

JavaScript aliasing note: the source assigns
`probe.memory.discoveredResources[targetBody.id] = targetBody.resources`
in place on the fetched record (visible in the store at once, `s1`), then
`addProbeExperience` installs a fresh memory object with the scan
experience (`s2`), and the final `updateProbe({ memory: probe.memory })`
writes the older aliased object back, dropping that experience (`s3`). -/
noncomputable def scanForResources (s : GameState)
    (probeId targetBodyId : String) :
    Except String (TaskOutput ScanData × GameState) :=
  match getProbe s probeId with
  | none => .error "Probe not found"
  | some probe =>
    match getSolarSystem s probe.currentSystemId with
    | none => .error "Solar system not found"
    | some currentSystem =>
      match currentSystem.bodies.find? (fun b => b.id == targetBodyId) with
      | none => .error "Celestial body not found"
      | some targetBody =>
        let distance := calculateDistance probe.position targetBody.position
        if distance > (probe.capabilities.sensorRange : ℝ) then
          .ok ({ success := false, data := none,
                 error := some ⟨.out_of_range⟩ }, s)
        else
          let mutatedMemory :=
            { probe.memory with
                discoveredResources := setKey probe.memory.discoveredResources
                  targetBody.id targetBody.resources }
          let s1 := updateProbe s probeId (fun p =>
            { p with memory := mutatedMemory })
          let s2 := addProbeExperience s1 probeId "resources_scanned"
          let s3 := updateProbe s2 probeId (fun p =>
            { p with memory := mutatedMemory })
          .ok ({ success := true
                 data := some ⟨targetBody.name, targetBody.resources,
                   distance⟩
                 error := none }, s3)

/-- The `"wait"` case of the probe agent's action switch: append a
`"waited"` experience, nothing else. -/
def waitAction (s : GameState) (probeId : String) : GameState :=
  addProbeExperience s probeId "waited"

/-- The `"explore_system"` case of the probe agent's action switch. -/
def exploreSystemAction (s : GameState) (probeId : String) : GameState :=
  addProbeExperience s probeId "explored_system"

/-! ## Tick scheduler (runSimulation, src/unnamed/part_004) -/

/-- The body of `applySolarCharging`'s `forEach` for one probe of the
captured active list: append a `"solar_charging"` experience, then store
the +20 energy increment computed from the captured record. -/
def solarChargeProbe (s : GameState) (probe : Probe) : GameState :=
  let solarEnergyGain : ℚ := 20
  let updatedResources :=
    { probe.resources with energy := probe.resources.energy + solarEnergyGain }
  let s1 := addProbeExperience s probe.id "solar_charging"
  updateProbe s1 probe.id (fun p => { p with resources := updatedResources })

/-- `applySolarCharging`: every probe whose status is exactly `"active"`
gains 20 energy.  (The early return on an empty active list is a no-op and
needs no separate case.) -/
def applySolarCharging (s : GameState) : GameState :=
  let allProbes := getAllProbes s
  let activeProbes := allProbes.filter (fun p => p.status == .active)
  activeProbes.foldl solarChargeProbe s

/-- One turn of `runSimulation`'s `while` loop, fuel-indexed: `fuel` is
`maxTicks - tick`, so `tick < maxTicks` is `fuel > 0`.  The concurrent
per-probe agent pipelines (`Promise.all`) are abstracted by `agentStep`,
folded over the snapshot of non-destroyed probes; the inter-tick sleep and
logging are dropped.  The final check `activeProbes.length === 0` sits at
the END of the loop body, after the tick counter was already advanced. -/
def simLoop (agentStep : GameState → String → GameState) :
    ℕ → ℕ → GameState → ℕ × GameState
  | 0, tick, s => (tick, s)
  | fuel + 1, tick, s =>
    let tick1 := tick + 1
    let s1 := applySolarCharging s
    let activeProbes := (getAllProbes s1).filter
      (fun p => !(p.status == .destroyed))
    let s2 := activeProbes.foldl (fun acc p => agentStep acc p.id) s1
    if activeProbes.isEmpty then (tick1, s2)
    else simLoop agentStep fuel tick1 s2

/-- `run-astral-echo-simulation`: returns the reported `totalTicks`
together with the final store state. -/
def runSimulation (agentStep : GameState → String → GameState)
    (maxTicks : ℕ) (s : GameState) : ℕ × GameState :=
  simLoop agentStep maxTicks 0 s

/-! ## Environment query (getEnvironmentState, probe-state-tasks.ts) -/

structure NearbyBody where
  body : CelestialBody
  distance : ℝ

structure EnvData where
  currentSystem : SolarSystem
  nearbyBodies : List NearbyBody
  closestBody : CelestialBody
  distanceToClosest : ℝ

/-- Outcome of a task body in which a JavaScript runtime error may escape:
`thrown` models an explicit `throw new Error(...)`, `typeError` models the
runtime TypeError of dereferencing `undefined`. -/
inductive JsOutcome (α : Type) where
  | ok (a : α)
  | thrown (msg : String)
  | typeError

/-- `get-environment-state`: sorts the system's non-star bodies by
ascending distance (`Array.prototype.sort` with comparator
`a.distance - b.distance`, a stable sort, modelled by `mergeSort`) and
reads `nearbyBodies[0]` without a guard — on an empty bodies list the
subsequent `closestBody.body` dereference is a TypeError. -/
noncomputable def getEnvironmentState (s : GameState) (probeId : String) :
    JsOutcome EnvData :=
  match getProbe s probeId with
  | none => .thrown "Probe not found"
  | some probe =>
    match getSolarSystem s probe.currentSystemId with
    | none => .thrown "Solar system not found"
    | some currentSystem =>
      let nearbyBodies := (currentSystem.bodies.map (fun body =>
        NearbyBody.mk body (calculateDistance probe.position body.position)
        )).mergeSort (fun a b => decide (a.distance ≤ b.distance))
      match nearbyBodies with
      | [] => .typeError
      | closestBody :: rest =>
        .ok { currentSystem := currentSystem
              nearbyBodies := closestBody :: rest
              closestBody := closestBody.body
              distanceToClosest := closestBody.distance }

/-! ## Basic store lemmas -/

theorem find?_setKeyMap_self {α : Type} (l : List (String × α)) (k : String)
    (v : α) (h : l.any (fun e => e.1 == k) = true) :
    (l.map (fun e => if e.1 == k then (k, v) else e)).find?
      (fun e => e.1 == k) = some (k, v) := by
  induction l with
  | nil => simp at h
  | cons e t ih =>
    by_cases he : (e.1 == k) = true
    · rw [List.map_cons, if_pos he]
      exact List.find?_cons_of_pos _ (by simp)
    · rw [List.map_cons, if_neg he]
      rw [List.find?_cons_of_neg (p := fun (x : String × α) => x.1 == k) _ he]
      rw [List.any_cons, Bool.or_eq_true] at h
      exact ih (h.resolve_left he)

theorem find?_setKeyMap_ne {α : Type} (l : List (String × α)) (k k' : String)
    (v : α) (hne : k' ≠ k) :
    (l.map (fun e => if e.1 == k then (k, v) else e)).find?
      (fun e => e.1 == k') = l.find? (fun e => e.1 == k') := by
  induction l with
  | nil => rfl
  | cons e t ih =>
    by_cases he : (e.1 == k) = true
    · have he' : e.1 = k := by simpa using he
      rw [List.map_cons, if_pos he]
      rw [List.find?_cons_of_neg (p := fun (x : String × α) => x.1 == k') _
        (by simpa using hne.symm)]
      rw [List.find?_cons_of_neg (p := fun (x : String × α) => x.1 == k') _
        (by simp only [he', beq_iff_eq]; exact fun hk => hne hk.symm)]
      exact ih
    · rw [List.map_cons, if_neg he]
      by_cases hk' : (e.1 == k') = true
      · rw [List.find?_cons_of_pos (p := fun (x : String × α) => x.1 == k') _ hk',
          List.find?_cons_of_pos (p := fun (x : String × α) => x.1 == k') _ hk']
      · rw [List.find?_cons_of_neg (p := fun (x : String × α) => x.1 == k') _ hk',
          List.find?_cons_of_neg (p := fun (x : String × α) => x.1 == k') _ hk']
        exact ih

theorem getKey_setKey_self {α : Type} (l : List (String × α)) (k : String)
    (v : α) : getKey (setKey l k v) k = some v := by
  unfold setKey getKey
  by_cases h : l.any (fun e => e.1 == k) = true
  · rw [if_pos h, find?_setKeyMap_self l k v h]
    rfl
  · rw [if_neg h, List.find?_append]
    have hl : l.find? (fun e => e.1 == k) = none := by
      rw [List.find?_eq_none]
      intro e he hc
      exact h (List.any_eq_true.mpr ⟨e, he, hc⟩)
    rw [hl]
    simp

theorem getKey_setKey_ne {α : Type} (l : List (String × α)) (k k' : String)
    (v : α) (hne : k' ≠ k) : getKey (setKey l k v) k' = getKey l k' := by
  unfold setKey getKey
  by_cases h : l.any (fun e => e.1 == k) = true
  · rw [if_pos h, find?_setKeyMap_ne l k k' v hne]
  · rw [if_neg h, List.find?_append]
    by_cases hf : l.find? (fun e => e.1 == k') = none
    · rw [hf]
      have : ((k, v).1 == k') = false := by simpa using fun hk => hne hk.symm
      simp [this]
    · rcases Option.ne_none_iff_exists'.mp hf with ⟨e, he⟩
      rw [he]
      simp [he]

theorem getProbe_updateProbe_self (s : GameState) (probeId : String)
    (f : Probe → Probe) (p : Probe) (h : getProbe s probeId = some p) :
    getProbe (updateProbe s probeId f) probeId = some (f p) := by
  unfold getProbe at h ⊢
  unfold updateProbe
  rw [h]
  exact getKey_setKey_self _ _ _

theorem getProbe_updateProbe_ne (s : GameState) (probeId pid' : String)
    (f : Probe → Probe) (hne : pid' ≠ probeId) :
    getProbe (updateProbe s probeId f) pid' = getProbe s pid' := by
  unfold getProbe updateProbe
  cases hk : getKey s.probes probeId with
  | none => rfl
  | some p => exact getKey_setKey_ne _ _ _ _ hne

theorem updateProbe_not_found (s : GameState) (probeId : String)
    (f : Probe → Probe) (h : getProbe s probeId = none) :
    updateProbe s probeId f = s := by
  unfold updateProbe
  unfold getProbe at h
  rw [h]

theorem getProbe_addProbe_self (s : GameState) (p : Probe) :
    getProbe (addProbe s p) p.id = some p :=
  getKey_setKey_self _ _ _

theorem getProbe_addProbe_ne (s : GameState) (p : Probe) (pid : String)
    (hne : pid ≠ p.id) : getProbe (addProbe s p) pid = getProbe s pid :=
  getKey_setKey_ne _ _ _ _ hne

theorem solarSystems_updateProbe (s : GameState) (probeId : String)
    (f : Probe → Probe) :
    (updateProbe s probeId f).solarSystems = s.solarSystems := by
  unfold updateProbe
  cases getKey s.probes probeId <;> rfl

theorem solarSystems_addProbe (s : GameState) (p : Probe) :
    (addProbe s p).solarSystems = s.solarSystems := rfl

theorem solarSystems_addProbeExperience (s : GameState) (probeId ev : String) :
    (addProbeExperience s probeId ev).solarSystems = s.solarSystems := by
  unfold addProbeExperience
  cases getProbe s probeId with
  | none => rfl
  | some p => exact solarSystems_updateProbe _ _ _

theorem probes_addSolarSystem (s : GameState) (sys : SolarSystem) :
    (addSolarSystem s sys).probes = s.probes := rfl

theorem getProbe_addSolarSystem (s : GameState) (sys : SolarSystem)
    (pid : String) : getProbe (addSolarSystem s sys) pid = getProbe s pid :=
  rfl

theorem getSolarSystem_addSolarSystem_self (s : GameState)
    (sys : SolarSystem) :
    getSolarSystem (addSolarSystem s sys) sys.id = some sys :=
  getKey_setKey_self _ _ _

theorem getSolarSystem_addSolarSystem_ne (s : GameState) (sys : SolarSystem)
    (sid : String) (hne : sid ≠ sys.id) :
    getSolarSystem (addSolarSystem s sys) sid = getSolarSystem s sid :=
  getKey_setKey_ne _ _ _ _ hne

theorem getSolarSystem_updateProbe (s : GameState) (probeId : String)
    (f : Probe → Probe) (sid : String) :
    getSolarSystem (updateProbe s probeId f) sid = getSolarSystem s sid := by
  unfold getSolarSystem
  rw [solarSystems_updateProbe]

theorem getSolarSystem_addProbeExperience (s : GameState)
    (probeId ev : String) (sid : String) :
    getSolarSystem (addProbeExperience s probeId ev) sid =
      getSolarSystem s sid := by
  unfold getSolarSystem
  rw [solarSystems_addProbeExperience]

theorem getProbe_addProbeExperience_self (s : GameState) (probeId ev : String)
    (p : Probe) (h : getProbe s probeId = some p) :
    getProbe (addProbeExperience s probeId ev) probeId =
      some { p with memory :=
        { p.memory with experiences := p.memory.experiences ++ [⟨ev⟩] } } := by
  unfold addProbeExperience
  rw [h]
  exact getProbe_updateProbe_self _ _ _ _ h

theorem getProbe_addProbeExperience_ne (s : GameState) (probeId ev : String)
    (pid' : String) (hne : pid' ≠ probeId) :
    getProbe (addProbeExperience s probeId ev) pid' = getProbe s pid' := by
  unfold addProbeExperience
  cases getProbe s probeId with
  | none => rfl
  | some p => exact getProbe_updateProbe_ne _ _ _ _ hne

/-! ## Shared concrete fixtures for witnesses -/

def testMemory : ProbeMemory :=
  { visitedSystems := [], discoveredResources := [], knownProbes := [],
    experiences := [] }

def testProbe (id : String) (status : ProbeStatus) (pos : Position)
    (res : Resources) : Probe :=
  { id := id, name := "T", status := status, position := pos,
    currentSystemId := "sys0", resources := res, memory := testMemory,
    capabilities := BASE_PROBE_CAPABILITIES, generation := 0 }

def testBody (id : String) (pos : Position) (res : Resources) :
    CelestialBody :=
  { id := id, name := "B", type := .planet, position := pos,
    resources := res, mass := 1, radius := 1 }

def testSystem (bodies : List CelestialBody) : SolarSystem :=
  { id := "sys0", name := "Sys", position := ⟨0, 0, 0⟩,
    star := { id := "star0", name := "S", type := .star,
              position := ⟨0, 0, 0⟩, resources := ⟨0, 0, 0, 0, 0⟩,
              mass := 1, radius := 1 },
    bodies := bodies }

/-! ## C10: addProbe overwrites without a uniqueness check -/

/-- C10: `addProbe(p)` makes the store's probe map at key `p.id` equal to
`p` and leaves every other probe and every system unchanged; an existing
probe with the same id is silently overwritten, never rejected. -/
theorem addProbe_overwrites_silently (s : GameState) (p : Probe) :
    getProbe (addProbe s p) p.id = some p ∧
    (∀ pid, pid ≠ p.id → getProbe (addProbe s p) pid = getProbe s pid) ∧
    (addProbe s p).solarSystems = s.solarSystems :=
  ⟨getProbe_addProbe_self s p,
   fun _ hne => getProbe_addProbe_ne s p _ hne,
   solarSystems_addProbe s p⟩

def c10State : GameState :=
  { probes := [("a", testProbe "a" .active ⟨0, 0, 0⟩ ⟨1, 1, 1, 1, 1⟩)],
    solarSystems := [] }

def c10NewProbe : Probe := testProbe "a" .damaged ⟨5, 0, 0⟩ ⟨2, 2, 2, 2, 2⟩

/-- C10 witness: overwriting the existing probe `"a"` of `c10State`. -/
theorem addProbe_overwrites_silently_witness :
    ("b" : String) ≠ "a" ∧
    getProbe (addProbe c10State c10NewProbe) "b" = getProbe c10State "b" ∧
    getProbe (addProbe c10State c10NewProbe) "a" = some c10NewProbe :=
  ⟨by decide,
   (addProbe_overwrites_silently c10State c10NewProbe).2.1 "b" (by decide),
   (addProbe_overwrites_silently c10State c10NewProbe).1⟩

/-! ## C8: the two revisions of calculateDistance -/

/-- C8 counterexample: the `game-state.ts` revision and the `part_007`
revision of `calculateDistance` do NOT agree — at `(0,0,0)` and
`(150,0,0)` the former returns `150` (raw Euclidean length) and the latter
`1` (AU conversion). -/
theorem calculateDistance_revisions_disagree :
    calculateDistance ⟨0, 0, 0⟩ ⟨150, 0, 0⟩ ≠
      calculateDistanceAU ⟨0, 0, 0⟩ ⟨150, 0, 0⟩ := by
  have hsq : (((150 : ℚ) : ℝ) - ((0 : ℚ) : ℝ)) ^ 2 +
      (((0 : ℚ) : ℝ) - ((0 : ℚ) : ℝ)) ^ 2 +
      (((0 : ℚ) : ℝ) - ((0 : ℚ) : ℝ)) ^ 2 = (150 : ℝ) ^ 2 := by
    norm_num
  have h1 : calculateDistance ⟨0, 0, 0⟩ ⟨150, 0, 0⟩ = 150 := by
    unfold calculateDistance
    rw [hsq, Real.sqrt_sq (by norm_num)]
  have h2 : calculateDistanceAU ⟨0, 0, 0⟩ ⟨150, 0, 0⟩ = 1 := by
    unfold calculateDistanceAU
    rw [hsq, Real.sqrt_sq (by norm_num)]
    norm_num
  rw [h1, h2]
  norm_num

/-- C8 amended: `calculateDistance` (game-state.ts) is nonnegative and its
square is the coordinate square-sum, i.e. it is the raw Euclidean
distance; the `part_007` revision returns the same length divided by 150
(the AU display conversion), so the two revisions differ by that constant
factor rather than agreeing. -/
theorem calculateDistance_euclidean_and_AU_factor (p1 p2 : Position) :
    0 ≤ calculateDistance p1 p2 ∧
    (calculateDistance p1 p2) ^ 2 =
      ((p2.x : ℝ) - (p1.x : ℝ)) ^ 2 + ((p2.y : ℝ) - (p1.y : ℝ)) ^ 2 +
        ((p2.z : ℝ) - (p1.z : ℝ)) ^ 2 ∧
    calculateDistance p1 p2 = 150 * calculateDistanceAU p1 p2 := by
  refine ⟨Real.sqrt_nonneg _, Real.sq_sqrt (by positivity), ?_⟩
  unfold calculateDistance calculateDistanceAU
  ring

/-! ## C7: harvest out of range is a pure typed failure -/

/-- C7: when the probe's distance to the target body exceeds the proximity
threshold 1.0, `harvestResources` returns a `too_far` precondition failure
and the returned state is exactly the input state — no probe resource, no
body stock, nothing in the store changed. -/
theorem harvest_too_far_pure (s : GameState) (probeId targetBodyId : String)
    (duration : ℚ) (probe : Probe) (sys : SolarSystem) (body : CelestialBody)
    (hp : getProbe s probeId = some probe)
    (hs : getSolarSystem s probe.currentSystemId = some sys)
    (hb : sys.bodies.find? (fun b => b.id == targetBodyId) = some body)
    (hd : calculateDistance probe.position body.position > 1) :
    harvestResources s probeId targetBodyId duration =
      .ok ({ success := false, data := none, error := some ⟨.too_far⟩ }, s) := by
  unfold harvestResources
  rw [hp]
  dsimp only
  rw [hs]
  dsimp only
  rw [hb]
  dsimp only
  rw [if_pos hd]

def c7State : GameState :=
  { probes := [("a", testProbe "a" .active ⟨0, 0, 0⟩ ⟨1000, 100, 100, 100, 10⟩)],
    solarSystems :=
      [("sys0", testSystem [testBody "b1" ⟨150, 0, 0⟩ ⟨0, 5000, 3000, 100, 200⟩])] }

/-- C7 witness: probe at the origin, body 150 units away. -/
theorem harvest_too_far_pure_witness :
    calculateDistance (testProbe "a" .active ⟨0, 0, 0⟩
        ⟨1000, 100, 100, 100, 10⟩).position
      (testBody "b1" ⟨150, 0, 0⟩ ⟨0, 5000, 3000, 100, 200⟩).position > 1 ∧
    harvestResources c7State "a" "b1" 5 =
      .ok ({ success := false, data := none, error := some ⟨.too_far⟩ },
        c7State) := by
  have hd : calculateDistance (testProbe "a" .active ⟨0, 0, 0⟩
      ⟨1000, 100, 100, 100, 10⟩).position
      (testBody "b1" ⟨150, 0, 0⟩ ⟨0, 5000, 3000, 100, 200⟩).position > 1 := by
    show calculateDistance ⟨0, 0, 0⟩ ⟨150, 0, 0⟩ > 1
    have hsq : (((150 : ℚ) : ℝ) - ((0 : ℚ) : ℝ)) ^ 2 +
        (((0 : ℚ) : ℝ) - ((0 : ℚ) : ℝ)) ^ 2 +
        (((0 : ℚ) : ℝ) - ((0 : ℚ) : ℝ)) ^ 2 = (150 : ℝ) ^ 2 := by
      norm_num
    unfold calculateDistance
    rw [hsq, Real.sqrt_sq (by norm_num)]
    norm_num
  refine ⟨hd, ?_⟩
  exact harvest_too_far_pure c7State "a" "b1" 5 _ _ _ (by rfl) (by rfl)
    (by rfl) hd

/-! ## C5: travel precondition and effect -/

/-- C5: for an existing probe, `travelToPosition` succeeds iff
`energy ≥ ceil(distance × 2)`.  On success it moves the probe to the
target, deducts exactly the energy cost leaving the other four resource
fields unchanged, returns the probe to status `active`, and reports
`travelTime = ceil(distance / maxSpeed)`; on insufficient energy it
returns a typed `insufficient_energy` failure with the state untouched. -/
theorem travel_spec (s : GameState) (probeId : String) (target : Position)
    (probe : Probe) (h : getProbe s probeId = some probe) :
    (probe.resources.energy <
        ((⌈calculateDistance probe.position target * 2⌉ : ℤ) : ℚ) →
      travelToPosition s probeId target =
        .ok ({ success := false, data := none,
               error := some ⟨.insufficient_energy⟩ }, s)) ∧
    (¬ probe.resources.energy <
        ((⌈calculateDistance probe.position target * 2⌉ : ℤ) : ℚ) →
      ∃ s', travelToPosition s probeId target =
        .ok ({ success := true
               data := some
                 { distance := calculateDistance probe.position target
                   energyUsed := ⌈calculateDistance probe.position target * 2⌉
                   travelTime := ⌈calculateDistance probe.position target /
                     (probe.capabilities.maxSpeed : ℝ)⌉
                   newPosition := target }
               error := none }, s') ∧
        getProbe s' probeId = some
          { probe with
              status := .active
              position := target
              resources := { probe.resources with
                energy := probe.resources.energy -
                  ((⌈calculateDistance probe.position target * 2⌉ : ℤ) : ℚ) }
              memory := { probe.memory with
                experiences :=
                  probe.memory.experiences ++ [⟨"travel_completed"⟩] } } ∧
        (∀ p', getProbe s' probeId = some p' →
          p'.resources.metal = probe.resources.metal ∧
          p'.resources.silicon = probe.resources.silicon ∧
          p'.resources.hydrogen = probe.resources.hydrogen ∧
          p'.resources.rare_elements = probe.resources.rare_elements)) := by
  constructor
  · intro hlt
    unfold travelToPosition
    rw [h]
    dsimp only
    rw [if_pos hlt]
  · intro hge
    unfold travelToPosition
    rw [h]
    dsimp only
    rw [if_neg hge]
    refine ⟨_, rfl, ?_, ?_⟩
    · have h1 := getProbe_updateProbe_self s probeId (fun p =>
        { p with
            status := .traveling
            position := target
            resources := subtractResources probe.resources
              { energy := ((⌈calculateDistance probe.position target * 2⌉ :
                  ℤ) : ℚ), metal := 0, silicon := 0,
                hydrogen := 0, rare_elements := 0 } }) probe h
      have h2 := getProbe_addProbeExperience_self _ probeId
        "travel_completed" _ h1
      have h3 := getProbe_updateProbe_self _ probeId
        (fun p => { p with status := .active }) _ h2
      rw [h3]
      congr 1
      simp [subtractResources]
    · intro p' hp'
      have h1 := getProbe_updateProbe_self s probeId (fun p =>
        { p with
            status := .traveling
            position := target
            resources := subtractResources probe.resources
              { energy := ((⌈calculateDistance probe.position target * 2⌉ :
                  ℤ) : ℚ), metal := 0, silicon := 0,
                hydrogen := 0, rare_elements := 0 } }) probe h
      have h2 := getProbe_addProbeExperience_self _ probeId
        "travel_completed" _ h1
      have h3 := getProbe_updateProbe_self _ probeId
        (fun p => { p with status := .active }) _ h2
      rw [h3] at hp'
      cases hp'
      simp [subtractResources]

def c5Probe : Probe := testProbe "a" .active ⟨0, 0, 0⟩ ⟨1000, 100, 100, 100, 10⟩

def c5State : GameState :=
  { probes := [("a", c5Probe)], solarSystems := [] }

/-- C5 witness: probe with 1000 energy travels distance 5 (cost 10). -/
theorem travel_spec_witness :
    ¬ c5Probe.resources.energy <
        ((⌈calculateDistance c5Probe.position ⟨3, 4, 0⟩ * 2⌉ : ℤ) : ℚ) ∧
    ∃ out s', travelToPosition c5State "a" ⟨3, 4, 0⟩ = .ok (out, s') ∧
      out.success = true := by
  have hd : calculateDistance c5Probe.position ⟨3, 4, 0⟩ = 5 := by
    show calculateDistance ⟨0, 0, 0⟩ ⟨3, 4, 0⟩ = 5
    unfold calculateDistance
    have hsq : (((3 : ℚ) : ℝ) - ((0 : ℚ) : ℝ)) ^ 2 +
        (((4 : ℚ) : ℝ) - ((0 : ℚ) : ℝ)) ^ 2 +
        (((0 : ℚ) : ℝ) - ((0 : ℚ) : ℝ)) ^ 2 = (5 : ℝ) ^ 2 := by norm_num
    rw [hsq, Real.sqrt_sq (by norm_num)]
  have hge : ¬ c5Probe.resources.energy <
      ((⌈calculateDistance c5Probe.position ⟨3, 4, 0⟩ * 2⌉ : ℤ) : ℚ) := by
    rw [hd]
    have hceil : ⌈(5 : ℝ) * 2⌉ = (10 : ℤ) := by norm_num
    rw [hceil]
    show ¬ (1000 : ℚ) < ((10 : ℤ) : ℚ)
    norm_num
  obtain ⟨s', heq, _, _⟩ :=
    (travel_spec c5State "a" ⟨3, 4, 0⟩ c5Probe rfl).2 hge
  exact ⟨hge, _, s', heq, rfl⟩

/-! ## C1: manufacture is atomic -/

/-- C1: if the parent exists and affords `PROBE_REPLICATION_COST`,
`manufactureProbe` deducts exactly that cost component-wise from the
parent and inserts a child probe with `generation = parent.generation + 1`
(at a fresh id); if the parent cannot afford the cost, it returns a typed
`insufficient_resources` failure and the returned state is exactly the
input state — nothing inserted, no resources changed. -/
theorem manufacture_atomic (s : GameState)
    (probeId newProbeName newProbeId : String) (parent : Probe)
    (hp : getProbe s probeId = some parent)
    (_hfresh : getProbe s newProbeId = none)
    (hne : newProbeId ≠ probeId) :
    (canAffordResources parent.resources PROBE_REPLICATION_COST = true →
      ∃ s' child, manufactureProbe s probeId newProbeName newProbeId =
          .ok ({ success := true
                 data := some ⟨newProbeId, newProbeName,
                   parent.generation + 1, PROBE_REPLICATION_COST⟩
                 error := none }, s') ∧
        getProbe s' newProbeId = some child ∧
        child.generation = parent.generation + 1 ∧
        child.resources = CHILD_START_RESOURCES ∧
        (∃ parent', getProbe s' probeId = some parent' ∧
          parent'.resources.energy =
            parent.resources.energy - PROBE_REPLICATION_COST.energy ∧
          parent'.resources.metal =
            parent.resources.metal - PROBE_REPLICATION_COST.metal ∧
          parent'.resources.silicon =
            parent.resources.silicon - PROBE_REPLICATION_COST.silicon ∧
          parent'.resources.hydrogen =
            parent.resources.hydrogen - PROBE_REPLICATION_COST.hydrogen ∧
          parent'.resources.rare_elements =
            parent.resources.rare_elements -
              PROBE_REPLICATION_COST.rare_elements)) ∧
    (canAffordResources parent.resources PROBE_REPLICATION_COST = false →
      manufactureProbe s probeId newProbeName newProbeId =
        .ok ({ success := false, data := none,
               error := some ⟨.insufficient_resources⟩ }, s)) := by
  constructor
  · intro hcan
    unfold manufactureProbe
    rw [hp]
    dsimp only
    rw [hcan, if_neg (by simp)]
    refine ⟨_,
      { id := newProbeId, name := newProbeName, status := .active,
        position := parent.position,
        currentSystemId := parent.currentSystemId,
        resources := CHILD_START_RESOURCES,
        memory := { visitedSystems := parent.memory.visitedSystems,
                    discoveredResources := parent.memory.discoveredResources,
                    knownProbes := parent.memory.knownProbes ++ [parent.id],
                    experiences := [⟨"probe_manufactured"⟩] },
        capabilities := BASE_PROBE_CAPABILITIES,
        parentProbeId := some parent.id,
        generation := parent.generation + 1 }, rfl, ?_, rfl, rfl, ?_⟩
    · -- the child record at newProbeId, untouched by the later parent updates
      rw [getProbe_updateProbe_ne _ _ _ _ hne,
        getProbe_addProbeExperience_ne _ _ _ _ hne,
        getProbe_updateProbe_ne _ _ _ _ hne]
      exact getProbe_addProbe_self _ _
    · -- the parent record after the whole update chain
      have h1 := getProbe_updateProbe_self s probeId (fun p =>
        { p with
            status := ProbeStatus.manufacturing
            resources := subtractResources parent.resources
              PROBE_REPLICATION_COST }) parent hp
      have h2 := (getProbe_addProbe_ne
        (updateProbe s probeId (fun p =>
          { p with
              status := ProbeStatus.manufacturing
              resources := subtractResources parent.resources
                PROBE_REPLICATION_COST }))
        { id := newProbeId, name := newProbeName, status := .active,
          position := parent.position,
          currentSystemId := parent.currentSystemId,
          resources := CHILD_START_RESOURCES,
          memory := { visitedSystems := parent.memory.visitedSystems,
                      discoveredResources := parent.memory.discoveredResources,
                      knownProbes := parent.memory.knownProbes ++ [parent.id],
                      experiences := [⟨"probe_manufactured"⟩] },
          capabilities := BASE_PROBE_CAPABILITIES,
          parentProbeId := some parent.id,
          generation := parent.generation + 1 }
        probeId (fun hc => hne hc.symm)).trans h1
      have h3 := getProbe_updateProbe_self _ probeId (fun p =>
        { p with memory := { parent.memory with
            knownProbes := parent.memory.knownProbes ++ [newProbeId] } })
        _ h2
      have h4 := getProbe_addProbeExperience_self _ probeId
        "probe_manufactured" _ h3
      have h5 := getProbe_updateProbe_self _ probeId (fun p =>
        { p with
            memory := { parent.memory with
              knownProbes := parent.memory.knownProbes ++ [newProbeId] }
            status := ProbeStatus.active }) _ h4
      exact ⟨_, h5, rfl, rfl, rfl, rfl, rfl⟩
  · intro hcant
    unfold manufactureProbe
    rw [hp]
    dsimp only
    rw [hcant, if_pos (by simp)]

def c1Parent : Probe :=
  testProbe "a" .active ⟨0, 0, 0⟩ ⟨1000, 500, 300, 200, 50⟩

def c1State : GameState :=
  { probes := [("a", c1Parent)], solarSystems := [] }

/-- C1 witness: a parent holding exactly the replication cost manufactures
a child at the fresh id `"c"`. -/
theorem manufacture_atomic_witness :
    canAffordResources c1Parent.resources PROBE_REPLICATION_COST = true ∧
    getProbe c1State "c" = none ∧
    ∃ s' child, manufactureProbe c1State "a" "Kid" "c" =
        .ok ({ success := true
               data := some ⟨"c", "Kid", c1Parent.generation + 1,
                 PROBE_REPLICATION_COST⟩
               error := none }, s') ∧
      getProbe s' "c" = some child ∧
      child.generation = c1Parent.generation + 1 := by
  have h := (manufacture_atomic c1State "a" "Kid" "c" c1Parent rfl
    (by decide) (by decide)).1 (by decide)
  obtain ⟨s', child, heq, hchild, hgen, _, _⟩ := h
  exact ⟨by decide, by decide, s', child, heq, hchild, hgen⟩

/-! ## C3: harvest is a conservation law -/

theorem find?_map_update_body {l : List CelestialBody} {tid : String}
    {body : CelestialBody}
    (h : l.find? (fun b => b.id == tid) = some body) (newBody : CelestialBody)
    (hid : newBody.id = body.id) :
    (l.map (fun b => if b.id == body.id then newBody else b)).find?
      (fun b => b.id == tid) = some newBody := by
  have hbid := List.find?_some h
  simp only at hbid
  induction l with
  | nil => simp at h
  | cons e t ih =>
    by_cases he : (e.id == tid) = true
    · rw [List.find?_cons_of_pos (p := fun (b : CelestialBody) => b.id == tid)
        _ he] at h
      have he' : e = body := by injection h
      subst he'
      rw [List.map_cons, if_pos (by simp)]
      refine List.find?_cons_of_pos
        (p := fun (b : CelestialBody) => b.id == tid) _ ?_
      show (newBody.id == tid) = true
      rw [hid]
      exact hbid
    · rw [List.find?_cons_of_neg (p := fun (b : CelestialBody) => b.id == tid)
        _ he] at h
      rw [List.map_cons]
      have hne : ¬ (e.id == body.id) = true := by
        intro hc
        apply he
        have h1 : e.id = body.id := by simpa using hc
        rw [h1]
        exact hbid
      rw [if_neg hne,
        List.find?_cons_of_neg (p := fun (b : CelestialBody) => b.id == tid)
          _ he]
      exact ih h

/-- C3: on every successful harvest, for each of the five resource fields
the probe's inventory gain and the target body's stock loss both equal
`min(harvestRate × duration, remaining stock)`, and the body's new stock
is never negative.  (`hkey` records the JavaScript store invariant that a
system is filed under its own id.) -/
theorem harvest_conservation (s : GameState) (probeId targetBodyId : String)
    (duration : ℚ) (probe : Probe) (sys : SolarSystem) (body : CelestialBody)
    (out : TaskOutput HarvestData) (s' : GameState)
    (hp : getProbe s probeId = some probe)
    (hs : getSolarSystem s probe.currentSystemId = some sys)
    (hkey : sys.id = probe.currentSystemId)
    (hb : sys.bodies.find? (fun b => b.id == targetBodyId) = some body)
    (hok : harvestResources s probeId targetBodyId duration = .ok (out, s'))
    (hsucc : out.success = true) :
    ∃ probe' sys' body',
      getProbe s' probeId = some probe' ∧
      getSolarSystem s' probe.currentSystemId = some sys' ∧
      sys'.bodies.find? (fun b => b.id == targetBodyId) = some body' ∧
      probe'.resources.energy = probe.resources.energy +
        min (probe.capabilities.harvestRate * duration)
          body.resources.energy ∧
      probe'.resources.metal = probe.resources.metal +
        min (probe.capabilities.harvestRate * duration)
          body.resources.metal ∧
      probe'.resources.silicon = probe.resources.silicon +
        min (probe.capabilities.harvestRate * duration)
          body.resources.silicon ∧
      probe'.resources.hydrogen = probe.resources.hydrogen +
        min (probe.capabilities.harvestRate * duration)
          body.resources.hydrogen ∧
      probe'.resources.rare_elements = probe.resources.rare_elements +
        min (probe.capabilities.harvestRate * duration)
          body.resources.rare_elements ∧
      body'.resources.energy = body.resources.energy -
        min (probe.capabilities.harvestRate * duration)
          body.resources.energy ∧
      body'.resources.metal = body.resources.metal -
        min (probe.capabilities.harvestRate * duration)
          body.resources.metal ∧
      body'.resources.silicon = body.resources.silicon -
        min (probe.capabilities.harvestRate * duration)
          body.resources.silicon ∧
      body'.resources.hydrogen = body.resources.hydrogen -
        min (probe.capabilities.harvestRate * duration)
          body.resources.hydrogen ∧
      body'.resources.rare_elements = body.resources.rare_elements -
        min (probe.capabilities.harvestRate * duration)
          body.resources.rare_elements ∧
      0 ≤ body'.resources.energy ∧
      0 ≤ body'.resources.metal ∧
      0 ≤ body'.resources.silicon ∧
      0 ≤ body'.resources.hydrogen ∧
      0 ≤ body'.resources.rare_elements := by
  unfold harvestResources at hok
  rw [hp] at hok
  dsimp only at hok
  rw [hs] at hok
  dsimp only at hok
  rw [hb] at hok
  dsimp only at hok
  split_ifs at hok with h1 h2
  · -- too_far branch: success is false, contradiction
    rw [Except.ok.injEq, Prod.mk.injEq] at hok
    obtain ⟨ho, _⟩ := hok
    rw [← ho] at hsucc
    simp at hsucc
  · -- storage_full branch: success is false, contradiction
    rw [Except.ok.injEq, Prod.mk.injEq] at hok
    obtain ⟨ho, _⟩ := hok
    rw [← ho] at hsucc
    simp at hsucc
  · -- success branch
    rw [Except.ok.injEq, Prod.mk.injEq] at hok
    obtain ⟨_, hst⟩ := hok
    subst hst
    have hpr1 := getProbe_updateProbe_self s probeId (fun p =>
      { p with
          status := ProbeStatus.harvesting
          resources := addResources probe.resources
            (actualHarvestOf (probe.capabilities.harvestRate * duration)
              body.resources) }) probe hp
    have hpr2 := (getProbe_addSolarSystem _
      { sys with
          bodies := sys.bodies.map (fun b =>
            if b.id == body.id then
              { body with
                  resources := subtractResources body.resources
                    (actualHarvestOf
                      (probe.capabilities.harvestRate * duration)
                      body.resources) }
            else b) }
      probeId).trans hpr1
    have hpr3 := getProbe_addProbeExperience_self _ probeId
      "resources_harvested" _ hpr2
    have hpr4 := getProbe_updateProbe_self _ probeId
      (fun p => { p with status := ProbeStatus.active }) _ hpr3
    have hsysStep : getSolarSystem
        (addSolarSystem (updateProbe s probeId (fun p =>
          { p with
              status := ProbeStatus.harvesting
              resources := addResources probe.resources
                (actualHarvestOf (probe.capabilities.harvestRate * duration)
                  body.resources) }))
          { sys with
              bodies := sys.bodies.map (fun b =>
                if b.id == body.id then
                  { body with
                      resources := subtractResources body.resources
                        (actualHarvestOf
                          (probe.capabilities.harvestRate * duration)
                          body.resources) }
                else b) })
        probe.currentSystemId = some
          { sys with
              bodies := sys.bodies.map (fun b =>
                if b.id == body.id then
                  { body with
                      resources := subtractResources body.resources
                        (actualHarvestOf
                          (probe.capabilities.harvestRate * duration)
                          body.resources) }
                else b) } := by
      rw [← hkey]
      exact getSolarSystem_addSolarSystem_self _ _
    have hsys2 := (getSolarSystem_updateProbe _ probeId
      (fun p => { p with status := ProbeStatus.active })
      probe.currentSystemId).trans
        ((getSolarSystem_addProbeExperience _ probeId "resources_harvested"
          probe.currentSystemId).trans hsysStep)
    have hfind := find?_map_update_body hb
      { body with
          resources := subtractResources body.resources
            (actualHarvestOf (probe.capabilities.harvestRate * duration)
              body.resources) }
      rfl
    exact ⟨_, _, _, hpr4, hsys2, hfind, rfl, rfl, rfl, rfl, rfl,
      rfl, rfl, rfl, rfl, rfl,
      sub_nonneg.mpr (min_le_right _ _), sub_nonneg.mpr (min_le_right _ _),
      sub_nonneg.mpr (min_le_right _ _), sub_nonneg.mpr (min_le_right _ _),
      sub_nonneg.mpr (min_le_right _ _)⟩

def c3Probe : Probe :=
  testProbe "a" .active ⟨150, 0, 0⟩ ⟨1000, 100, 100, 100, 10⟩

def c3Body : CelestialBody :=
  testBody "b1" ⟨150, 0, 0⟩ ⟨0, 5000, 3000, 100, 200⟩

def c3State : GameState :=
  { probes := [("a", c3Probe)],
    solarSystems := [("sys0", testSystem [c3Body])] }

/-- C3 witness: probe standing on the body harvests for 5 cycles and gains
`min(10 × 5, 5000) = 50` metal. -/
theorem harvest_conservation_witness :
    ∃ out s', harvestResources c3State "a" "b1" 5 = .ok (out, s') ∧
      out.success = true ∧
      ∃ probe', getProbe s' "a" = some probe' ∧
        probe'.resources.metal = 150 := by
  have hd0 : ¬ calculateDistance c3Probe.position c3Body.position > 1 := by
    show ¬ calculateDistance ⟨150, 0, 0⟩ ⟨150, 0, 0⟩ > 1
    unfold calculateDistance
    have hsq : (((150 : ℚ) : ℝ) - ((150 : ℚ) : ℝ)) ^ 2 +
        (((0 : ℚ) : ℝ) - ((0 : ℚ) : ℝ)) ^ 2 +
        (((0 : ℚ) : ℝ) - ((0 : ℚ) : ℝ)) ^ 2 = 0 := by norm_num
    rw [hsq, Real.sqrt_zero]
    norm_num
  have hstor : ¬ getTotalResourceAmount c3Probe.resources +
      getTotalResourceAmount (actualHarvestOf
        (c3Probe.capabilities.harvestRate * 5) c3Body.resources) >
      c3Probe.capabilities.storageCapacity := by
    norm_num [getTotalResourceAmount, actualHarvestOf, c3Probe, c3Body,
      testProbe, testBody, BASE_PROBE_CAPABILITIES, min_def]
  have hok : ∃ out s', harvestResources c3State "a" "b1" 5 = .ok (out, s') ∧
      out.success = true := by
    unfold harvestResources
    rw [show getProbe c3State "a" = some c3Probe from rfl]
    dsimp only
    rw [show getSolarSystem c3State c3Probe.currentSystemId =
      some (testSystem [c3Body]) from rfl]
    dsimp only
    rw [show (testSystem [c3Body]).bodies.find? (fun b => b.id == "b1") =
      some c3Body from rfl]
    dsimp only
    rw [if_neg hd0, if_neg hstor]
    exact ⟨_, _, rfl, rfl⟩
  obtain ⟨out, s', heq, hsucc⟩ := hok
  have hmain := harvest_conservation c3State "a" "b1" 5 c3Probe
    (testSystem [c3Body]) c3Body out s' rfl rfl rfl rfl heq hsucc
  obtain ⟨probe', _, _, hgp, _, _, _, hmetal, _, _, _, _, _, _, _, _,
    _, _, _, _, _⟩ := hmain
  refine ⟨out, s', heq, hsucc, probe', hgp, ?_⟩
  rw [hmetal]
  norm_num [c3Probe, c3Body, testProbe, testBody, BASE_PROBE_CAPABILITIES,
    min_def]

/-! ## C6: passive solar income -/

theorem getProbe_solarChargeProbe_ne (s : GameState) (q : Probe)
    (pid : String) (hne : pid ≠ q.id) :
    getProbe (solarChargeProbe s q) pid = getProbe s pid := by
  unfold solarChargeProbe
  rw [getProbe_updateProbe_ne _ _ _ _ hne,
    getProbe_addProbeExperience_ne _ _ _ _ hne]

theorem getProbe_foldl_solar_ne (ps : List Probe) (s : GameState)
    (pid : String) (h : ∀ q ∈ ps, pid ≠ q.id) :
    getProbe (ps.foldl solarChargeProbe s) pid = getProbe s pid := by
  induction ps generalizing s with
  | nil => rfl
  | cons q t ih =>
    rw [List.foldl_cons]
    rw [ih _ (fun r hr => h r (List.mem_cons_of_mem q hr))]
    exact getProbe_solarChargeProbe_ne s q pid (h q (List.mem_cons_self q t))

theorem getProbe_solarChargeProbe_self (s : GameState) (q : Probe) (p : Probe)
    (hq : getProbe s q.id = some p) :
    getProbe (solarChargeProbe s q) q.id = some
      { p with
          resources := { q.resources with
            energy := q.resources.energy + 20 }
          memory := { p.memory with
            experiences := p.memory.experiences ++ [⟨"solar_charging"⟩] } } := by
  unfold solarChargeProbe
  exact getProbe_updateProbe_self _ q.id _ _
    (getProbe_addProbeExperience_self s q.id "solar_charging" p hq)

/-- Entry lookup behind a successful `getProbe`. -/
theorem getProbe_entry (s : GameState) (pid : String) (p : Probe)
    (hp : getProbe s pid = some p) :
    ∃ e ∈ s.probes, e.1 = pid ∧ e.2 = p := by
  unfold getProbe getKey at hp
  cases hf : s.probes.find? (fun e => e.1 == pid) with
  | none => rw [hf] at hp; simp at hp
  | some e =>
    rw [hf] at hp
    have he1 := List.find?_some hf
    simp only at he1
    refine ⟨e, List.mem_of_find?_eq_some hf, by simpa using he1, ?_⟩
    simpa using hp

/-- In a store whose keys are Nodup and whose records carry their own key
as `id`, any probe of the snapshot list whose id is `pid` IS the probe
found at `pid`. -/
theorem snapshot_id_unique (s : GameState) (pid : String) (p q : Probe)
    (hnd : (s.probes.map (fun e => e.1)).Nodup)
    (hwf : ∀ e ∈ s.probes, e.2.id = e.1)
    (hp : getProbe s pid = some p)
    (hq : q ∈ getAllProbes s) (hqid : q.id = pid) : q = p := by
  obtain ⟨e, he, he1, he2⟩ := getProbe_entry s pid p hp
  unfold getAllProbes at hq
  obtain ⟨eq, heq, heq2⟩ := List.mem_map.mp hq
  have hkeyq : eq.1 = pid := by
    rw [← hwf eq heq, heq2, hqid]
  have : eq = e := List.inj_on_of_nodup_map hnd heq he (by rw [hkeyq, he1])
  rw [← he2, ← this, heq2]

theorem applySolar_getProbe_active (s : GameState) (pid : String) (p : Probe)
    (hnd : (s.probes.map (fun e => e.1)).Nodup)
    (hwf : ∀ e ∈ s.probes, e.2.id = e.1)
    (hp : getProbe s pid = some p) (hact : p.status = .active) :
    getProbe (applySolarCharging s) pid = some
      { p with
          resources := { p.resources with
            energy := p.resources.energy + 20 }
          memory := { p.memory with
            experiences := p.memory.experiences ++ [⟨"solar_charging"⟩] } } := by
  obtain ⟨e, he, he1, he2⟩ := getProbe_entry s pid p hp
  have hpid : p.id = pid := by rw [← he2, hwf e he, he1]
  have hmemAll : p ∈ getAllProbes s := by
    unfold getAllProbes
    exact List.mem_map.mpr ⟨e, he, he2⟩
  have hmemAct : p ∈ (getAllProbes s).filter (fun q => q.status == .active) :=
    List.mem_filter.mpr ⟨hmemAll, by rw [hact]; rfl⟩
  obtain ⟨l1, l2, hsplit⟩ := List.append_of_mem hmemAct
  have hndAct : (((getAllProbes s).filter
      (fun q => q.status == .active)).map (fun q => q.id)).Nodup := by
    have hids : (getAllProbes s).map (fun q => q.id) =
        s.probes.map (fun e => e.1) := by
      unfold getAllProbes
      rw [List.map_map]
      exact List.map_congr_left hwf
    have hsub : (((getAllProbes s).filter
        (fun q => q.status == .active)).map (fun q => q.id)).Sublist
        ((getAllProbes s).map (fun q => q.id)) :=
      List.Sublist.map _ (List.filter_sublist _)
    exact hsub.nodup (by rw [hids]; exact hnd)
  rw [hsplit] at hndAct
  rw [List.map_append, List.map_cons] at hndAct
  have hnotl1 : p.id ∉ l1.map (fun q => q.id) := by
    have hdisj := List.disjoint_of_nodup_append hndAct
    intro hc
    exact hdisj hc (List.mem_cons_self _ _)
  have hnotl2 : p.id ∉ l2.map (fun q => q.id) :=
    (List.nodup_cons.mp (List.nodup_append.mp hndAct).2.1).1
  unfold applySolarCharging
  dsimp only
  rw [hsplit, List.foldl_append, List.foldl_cons]
  have hpid' : pid = p.id := hpid.symm
  have hl1 : getProbe (l1.foldl solarChargeProbe s) pid = some p := by
    refine (getProbe_foldl_solar_ne l1 s pid ?_).trans hp
    intro q hq hc
    exact hnotl1 (by rw [hpid, hc]; exact List.mem_map_of_mem _ hq)
  have hcp := getProbe_solarChargeProbe_self (l1.foldl solarChargeProbe s)
    p p (by rw [hpid]; exact hl1)
  refine (getProbe_foldl_solar_ne l2 _ pid ?_).trans ?_
  · intro q hq hc
    exact hnotl2 (by rw [hpid, hc]; exact List.mem_map_of_mem _ hq)
  · rw [hpid']
    exact hcp

theorem applySolar_getProbe_inactive (s : GameState) (pid : String)
    (p : Probe)
    (hnd : (s.probes.map (fun e => e.1)).Nodup)
    (hwf : ∀ e ∈ s.probes, e.2.id = e.1)
    (hp : getProbe s pid = some p) (hact : p.status ≠ .active) :
    getProbe (applySolarCharging s) pid = some p := by
  have hall : ∀ q ∈ (getAllProbes s).filter (fun q => q.status == .active),
      pid ≠ q.id := by
    intro q hqf hc
    obtain ⟨hqall, hqact⟩ := List.mem_filter.mp hqf
    have hqp : q = p := snapshot_id_unique s pid p q hnd hwf hp hqall hc.symm
    rw [hqp] at hqact
    exact hact (by simpa using hqact)
  unfold applySolarCharging
  dsimp only
  exact (getProbe_foldl_solar_ne _ s pid hall).trans hp

/-- C6: at the start of each tick `applySolarCharging` gives every probe
whose status is exactly `active` +20 energy, leaves its other resource
fields unchanged, and appends one `"solar_charging"` experience; probes in
any other status are untouched.  In particular the seed probe (1000
energy) that only waits during one tick ends it with 1020 energy, status
`active`, and exactly the `"solar_charging"` and `"waited"` experiences
appended. -/
theorem solar_tick_income (s : GameState) (pid : String) (p : Probe)
    (hnd : (s.probes.map (fun e => e.1)).Nodup)
    (hwf : ∀ e ∈ s.probes, e.2.id = e.1)
    (hp : getProbe s pid = some p) :
    (p.status = .active → getProbe (applySolarCharging s) pid = some
      { p with
          resources := { p.resources with
            energy := p.resources.energy + 20 }
          memory := { p.memory with
            experiences := p.memory.experiences ++ [⟨"solar_charging"⟩] } }) ∧
    (p.status ≠ .active → getProbe (applySolarCharging s) pid = some p) ∧
    (∀ systemId probeId starId b1 b2 b3 : String,
      ∃ p', getProbe (waitAction (applySolarCharging
          (initializeGameState systemId probeId starId b1 b2 b3)) probeId)
          probeId = some p' ∧
        p'.resources.energy = 1020 ∧
        p'.status = .active ∧
        p'.memory.experiences =
          [⟨"probe_awakened"⟩, ⟨"solar_charging"⟩, ⟨"waited"⟩]) := by
  refine ⟨fun hact => applySolar_getProbe_active s pid p hnd hwf hp hact,
    fun hact => applySolar_getProbe_inactive s pid p hnd hwf hp hact, ?_⟩
  intro systemId probeId starId b1 b2 b3
  have hseed : getProbe (initializeGameState systemId probeId starId b1 b2 b3)
      probeId = some
        { id := probeId
          name := "Genesis"
          status := .active
          position := { x := 150, y := 0, z := 0 }
          currentSystemId := systemId
          resources :=
            { energy := 1000, metal := 100, silicon := 100, hydrogen := 100,
              rare_elements := 10 }
          memory :=
            { visitedSystems := [systemId]
              discoveredResources := [(systemId, seedBody1Resources)]
              knownProbes := []
              experiences := [⟨"probe_awakened"⟩] }
          capabilities := BASE_PROBE_CAPABILITIES
          parentProbeId := none
          generation := 0 } := by
    unfold initializeGameState getProbe getKey
    simp
  have hsolar := applySolar_getProbe_active
    (initializeGameState systemId probeId starId b1 b2 b3) probeId _
    (by unfold initializeGameState; simp)
    (by unfold initializeGameState; intro e he; simp at he; rw [he])
    hseed rfl
  have hwait := getProbe_addProbeExperience_self _ probeId "waited" _ hsolar
  exact ⟨_, hwait, by norm_num, rfl, rfl⟩

def c6State : GameState :=
  { probes := [("a", testProbe "a" .active ⟨0, 0, 0⟩ ⟨40, 0, 0, 0, 0⟩)],
    solarSystems := [] }

/-- C6 witness: the active probe of `c6State` gains exactly 20 energy. -/
theorem solar_tick_income_witness :
    getProbe c6State "a" =
      some (testProbe "a" .active ⟨0, 0, 0⟩ ⟨40, 0, 0, 0, 0⟩) ∧
    ∃ p', getProbe (applySolarCharging c6State) "a" = some p' ∧
      p'.resources.energy = 60 := by
  have h := ((solar_tick_income c6State "a"
    (testProbe "a" .active ⟨0, 0, 0⟩ ⟨40, 0, 0, 0, 0⟩)
    (by decide) (by decide) rfl).1) rfl
  exact ⟨rfl, _, h, by norm_num [testProbe]⟩

/-! ## C2: simulation started with zero non-destroyed probes -/

theorem applySolar_no_active (s : GameState)
    (h : (getAllProbes s).filter (fun p => !(p.status == .destroyed)) = []) :
    applySolarCharging s = s := by
  unfold applySolarCharging
  dsimp only
  have hact : (getAllProbes s).filter (fun p => p.status == .active) = [] := by
    rw [List.filter_eq_nil_iff] at h ⊢
    intro a ha
    have hd := h a ha
    simp at hd ⊢
    rw [hd]
    decide
  rw [hact]
  rfl

/-- C2 (amended): a simulation started with zero non-destroyed probes
still executes ONE loop iteration — the tick counter is incremented, solar
charging is a no-op, no agent pipeline runs — and only then hits the
emptiness check at the end of the loop body, so it terminates reporting
`totalTicks = 1` with the state unchanged. -/
theorem runSimulation_no_probes (agentStep : GameState → String → GameState)
    (maxTicks : ℕ) (s : GameState) (hmax : 1 ≤ maxTicks)
    (h : (getAllProbes s).filter (fun p => !(p.status == .destroyed)) = []) :
    runSimulation agentStep maxTicks s = (1, s) := by
  obtain ⟨n, rfl⟩ : ∃ n, maxTicks = n + 1 :=
    ⟨maxTicks - 1, (Nat.succ_pred_eq_of_pos hmax).symm⟩
  unfold runSimulation
  rw [simLoop]
  rw [applySolar_no_active s h, h]
  simp

def c2EmptyState : GameState := { probes := [], solarSystems := [] }

/-- C2 counterexample: with zero probes and `maxTicks = 5` the reported
total tick count is 1, not the claimed 0 — the loop body runs once before
the emptiness check. -/
theorem runSimulation_zero_probes_ticks_once :
    (runSimulation (fun st _ => st) 5 c2EmptyState).1 = 1 ∧
    ¬ ((runSimulation (fun st _ => st) 5 c2EmptyState).1 = 0) := by
  constructor <;> decide

/-- C2 witness for the amended theorem, at the concrete empty store. -/
theorem runSimulation_no_probes_witness :
    1 ≤ 5 ∧
    (getAllProbes c2EmptyState).filter
      (fun p => !(p.status == .destroyed)) = [] ∧
    runSimulation (fun st _ => st) 5 c2EmptyState = (1, c2EmptyState) :=
  ⟨by decide, by decide,
    runSimulation_no_probes (fun st _ => st) 5 c2EmptyState (by decide)
      (by decide)⟩

/-! ## C9: getEnvironmentState on empty and non-empty body lists -/

/-- C9: with the probe and its system present, `getEnvironmentState`
returns — when the system has at least one non-star body — an environment
whose `nearbyBodies` are all the bodies paired with their Euclidean
distances sorted ascending, and whose `closestBody` is a body of minimal
distance; but on an empty bodies list the unguarded `nearbyBodies[0]`
dereference is a runtime TypeError, not a typed failure. -/
theorem getEnvironmentState_spec (s : GameState) (probeId : String)
    (probe : Probe) (sys : SolarSystem)
    (hp : getProbe s probeId = some probe)
    (hs : getSolarSystem s probe.currentSystemId = some sys) :
    (sys.bodies = [] → getEnvironmentState s probeId = .typeError) ∧
    (sys.bodies ≠ [] → ∃ env, getEnvironmentState s probeId = .ok env ∧
      env.currentSystem = sys ∧
      env.nearbyBodies.Pairwise (fun a b => a.distance ≤ b.distance) ∧
      (env.nearbyBodies.map (fun nb => nb.body)).Perm sys.bodies ∧
      (∀ nb ∈ env.nearbyBodies,
        nb.distance = calculateDistance probe.position nb.body.position) ∧
      env.closestBody ∈ sys.bodies ∧
      env.distanceToClosest =
        calculateDistance probe.position env.closestBody.position ∧
      (∀ b ∈ sys.bodies, env.distanceToClosest ≤
        calculateDistance probe.position b.position)) := by
  have htrans : ∀ a b c : NearbyBody,
      (fun a b : NearbyBody => decide (a.distance ≤ b.distance)) a b = true →
      (fun a b : NearbyBody => decide (a.distance ≤ b.distance)) b c = true →
      (fun a b : NearbyBody => decide (a.distance ≤ b.distance)) a c =
        true := by
    intro a b c hab hbc
    simp only [decide_eq_true_eq] at hab hbc ⊢
    exact le_trans hab hbc
  have htotal : ∀ a b : NearbyBody,
      ((fun a b : NearbyBody => decide (a.distance ≤ b.distance)) a b ||
       (fun a b : NearbyBody => decide (a.distance ≤ b.distance)) b a) =
        true := by
    intro a b
    simpa using le_total a.distance b.distance
  constructor
  · intro hnil
    unfold getEnvironmentState
    rw [hp]
    dsimp only
    rw [hs]
    dsimp only
    rw [hnil]
    rw [List.map_nil, List.mergeSort_nil]
  · intro hne
    unfold getEnvironmentState
    rw [hp]
    dsimp only
    rw [hs]
    dsimp only
    have hperm := List.mergeSort_perm
      (sys.bodies.map (fun body =>
        NearbyBody.mk body (calculateDistance probe.position body.position)))
      (fun a b => decide (a.distance ≤ b.distance))
    have hsorted := List.sorted_mergeSort htrans htotal
      (sys.bodies.map (fun body =>
        NearbyBody.mk body (calculateDistance probe.position body.position)))
    cases hsort : (sys.bodies.map (fun body =>
        NearbyBody.mk body
          (calculateDistance probe.position body.position))).mergeSort
        (fun a b => decide (a.distance ≤ b.distance)) with
    | nil =>
      rw [hsort] at hperm
      have := hperm.symm.eq_nil
      rw [List.map_eq_nil_iff] at this
      exact absurd this hne
    | cons c rest =>
      rw [hsort] at hperm hsorted
      refine ⟨_, rfl, rfl, ?_, ?_, ?_, ?_, ?_, ?_⟩
      · exact hsorted.imp (fun h => of_decide_eq_true h)
      · have h1 := hperm.map (fun nb => nb.body)
        rw [List.map_map] at h1
        have h2 : List.map ((fun nb : NearbyBody => nb.body) ∘ fun body =>
            NearbyBody.mk body
              (calculateDistance probe.position body.position)) sys.bodies =
            sys.bodies := by
          simp [Function.comp_def]
        rw [h2] at h1
        simpa using h1
      · intro nb hnb
        have hmem := hperm.subset hnb
        obtain ⟨b, _, hb⟩ := List.mem_map.mp hmem
        rw [← hb]
      · have hmem := hperm.subset (List.mem_cons_self c rest)
        obtain ⟨b, hbmem, hb⟩ := List.mem_map.mp hmem
        have : c.body = b := by rw [← hb]
        rw [this]
        exact hbmem
      · have hmem := hperm.subset (List.mem_cons_self c rest)
        obtain ⟨b, _, hb⟩ := List.mem_map.mp hmem
        rw [← hb]
      · intro b hb
        have hmem : NearbyBody.mk b
            (calculateDistance probe.position b.position) ∈ c :: rest :=
          hperm.mem_iff.mpr (List.mem_map_of_mem _ hb)
        rcases List.mem_cons.mp hmem with hmem | hmem
        · rw [← hmem]
        · have hle := (List.pairwise_cons.mp hsorted).1 _ hmem
          simpa using hle

def c9ProbeA : Probe :=
  testProbe "a" .active ⟨150, 0, 0⟩ ⟨1000, 100, 100, 100, 10⟩

def c9EmptySystem : SolarSystem :=
  { id := "sysE", name := "E", position := ⟨0, 0, 0⟩,
    star := { id := "starE", name := "SE", type := .star,
              position := ⟨0, 0, 0⟩, resources := ⟨0, 0, 0, 0, 0⟩,
              mass := 1, radius := 1 },
    bodies := [] }

def c9ProbeE : Probe :=
  { testProbe "e" .active ⟨0, 0, 0⟩ ⟨0, 0, 0, 0, 0⟩ with
      currentSystemId := "sysE" }

def c9State : GameState :=
  { probes := [("a", c9ProbeA), ("e", c9ProbeE)],
    solarSystems := [("sys0", testSystem [c3Body]), ("sysE", c9EmptySystem)] }

/-- C9 witness: a one-body system yields an ok environment with the
closest body among the bodies; an empty system yields the TypeError. -/
theorem getEnvironmentState_spec_witness :
    (testSystem [c3Body]).bodies ≠ [] ∧
    (∃ env, getEnvironmentState c9State "a" = .ok env ∧
      env.closestBody ∈ (testSystem [c3Body]).bodies) ∧
    c9EmptySystem.bodies = [] ∧
    getEnvironmentState c9State "e" = .typeError := by
  have h1 := (getEnvironmentState_spec c9State "a" c9ProbeA
    (testSystem [c3Body]) rfl rfl).2 (by simp [testSystem])
  obtain ⟨env, heq, _, _, _, _, hmem, _, _⟩ := h1
  have h2 := (getEnvironmentState_spec c9State "e" c9ProbeE
    c9EmptySystem rfl rfl).1 rfl
  exact ⟨by simp [testSystem], ⟨env, heq, hmem⟩, rfl, h2⟩

/-! ## C4: non-negativity invariant over executor sequences -/

def ResourcesNonneg (r : Resources) : Prop :=
  0 ≤ r.energy ∧ 0 ≤ r.metal ∧ 0 ≤ r.silicon ∧ 0 ≤ r.hydrogen ∧
    0 ≤ r.rare_elements

def ProbeInv (p : Probe) : Prop :=
  ResourcesNonneg p.resources ∧ 0 ≤ p.capabilities.harvestRate

def SystemInv (sys : SolarSystem) : Prop :=
  ResourcesNonneg sys.star.resources ∧
    ∀ b ∈ sys.bodies, ResourcesNonneg b.resources

def StoreInv (s : GameState) : Prop :=
  (∀ e ∈ s.probes, ProbeInv e.2) ∧ (∀ e ∈ s.solarSystems, SystemInv e.2)

theorem mem_setKey {α : Type} (l : List (String × α)) (k : String) (v : α)
    (x : String × α) (hx : x ∈ setKey l k v) : x = (k, v) ∨ x ∈ l := by
  unfold setKey at hx
  split at hx
  · obtain ⟨e, he, hex⟩ := List.mem_map.mp hx
    by_cases hek : (e.1 == k) = true
    · rw [if_pos hek] at hex
      exact Or.inl hex.symm
    · rw [if_neg hek] at hex
      exact Or.inr (hex ▸ he)
  · rcases List.mem_append.mp hx with h | h
    · exact Or.inr h
    · exact Or.inl (by simpa using h)

theorem StoreInv_updateProbe (s : GameState) (pid : String)
    (f : Probe → Probe) (hs : StoreInv s)
    (hf : ∀ p, ProbeInv p → ProbeInv (f p)) :
    StoreInv (updateProbe s pid f) := by
  unfold updateProbe
  cases hk : getKey s.probes pid with
  | none => exact hs
  | some probe =>
    refine ⟨?_, hs.2⟩
    intro e he
    rcases mem_setKey _ _ _ _ he with h | h
    · rw [h]
      refine hf probe ?_
      unfold getKey at hk
      cases hf2 : s.probes.find? (fun e => e.1 == pid) with
      | none => rw [hf2] at hk; simp at hk
      | some e2 =>
        rw [hf2] at hk
        have he2 : e2.2 = probe := by simpa using hk
        exact he2 ▸ hs.1 e2 (List.mem_of_find?_eq_some hf2)
    · exact hs.1 e h

theorem StoreInv_addProbe (s : GameState) (p : Probe) (hs : StoreInv s)
    (hp : ProbeInv p) : StoreInv (addProbe s p) := by
  refine ⟨?_, hs.2⟩
  intro e he
  rcases mem_setKey _ _ _ _ he with h | h
  · rw [h]; exact hp
  · exact hs.1 e h

theorem StoreInv_addSolarSystem (s : GameState) (sys : SolarSystem)
    (hs : StoreInv s) (hsys : SystemInv sys) :
    StoreInv (addSolarSystem s sys) := by
  refine ⟨hs.1, ?_⟩
  intro e he
  rcases mem_setKey _ _ _ _ he with h | h
  · rw [h]; exact hsys
  · exact hs.2 e h

theorem StoreInv_addProbeExperience (s : GameState) (pid ev : String)
    (hs : StoreInv s) : StoreInv (addProbeExperience s pid ev) := by
  unfold addProbeExperience
  cases getProbe s pid with
  | none => exact hs
  | some probe =>
    exact StoreInv_updateProbe s pid _ hs (fun p hp => ⟨hp.1, hp.2⟩)

theorem ProbeInv_of_getProbe (s : GameState) (pid : String) (p : Probe)
    (hs : StoreInv s) (h : getProbe s pid = some p) : ProbeInv p := by
  obtain ⟨e, he, _, he2⟩ := getProbe_entry s pid p h
  exact he2 ▸ hs.1 e he

theorem SystemInv_of_getSolarSystem (s : GameState) (sid : String)
    (sys : SolarSystem) (hs : StoreInv s)
    (h : getSolarSystem s sid = some sys) : SystemInv sys := by
  unfold getSolarSystem getKey at h
  cases hf : s.solarSystems.find? (fun e => e.1 == sid) with
  | none => rw [hf] at h; simp at h
  | some e =>
    rw [hf] at h
    have he2 : e.2 = sys := by simpa using h
    exact he2 ▸ hs.2 e (List.mem_of_find?_eq_some hf)

theorem canAffordResources_iff (a c : Resources) :
    canAffordResources a c = true ↔
      c.energy ≤ a.energy ∧ c.metal ≤ a.metal ∧ c.silicon ≤ a.silicon ∧
        c.hydrogen ≤ a.hydrogen ∧ c.rare_elements ≤ a.rare_elements := by
  unfold canAffordResources
  simp [Bool.and_eq_true, decide_eq_true_eq, and_assoc]

/-- State component of a task call: the post state on a normal return, the
unchanged input state when the task threw. -/
def stepResultState {α : Type}
    (r : Except String (TaskOutput α × GameState)) (s : GameState) :
    GameState :=
  match r with
  | .ok (_, s') => s'
  | .error _ => s

theorem StoreInv_solarChargeProbe (s : GameState) (q : Probe)
    (hs : StoreInv s) (hq : ResourcesNonneg q.resources) :
    StoreInv (solarChargeProbe s q) := by
  unfold solarChargeProbe
  refine StoreInv_updateProbe _ _ _ (StoreInv_addProbeExperience _ _ _ hs) ?_
  intro p hp
  refine ⟨⟨?_, hq.2.1, hq.2.2.1, hq.2.2.2.1, hq.2.2.2.2⟩, hp.2⟩
  exact add_nonneg hq.1 (by norm_num)

theorem StoreInv_foldl_solar (ps : List Probe) (s : GameState)
    (hs : StoreInv s) (hps : ∀ q ∈ ps, ResourcesNonneg q.resources) :
    StoreInv (ps.foldl solarChargeProbe s) := by
  induction ps generalizing s with
  | nil => exact hs
  | cons q t ih =>
    rw [List.foldl_cons]
    exact ih _ (StoreInv_solarChargeProbe s q hs
      (hps q (List.mem_cons_self q t)))
      (fun r hr => hps r (List.mem_cons_of_mem q hr))

theorem StoreInv_applySolarCharging (s : GameState) (hs : StoreInv s) :
    StoreInv (applySolarCharging s) := by
  unfold applySolarCharging
  dsimp only
  refine StoreInv_foldl_solar _ s hs ?_
  intro q hq
  have hall : q ∈ getAllProbes s := (List.mem_filter.mp hq).1
  obtain ⟨e, he, he2⟩ := List.mem_map.mp hall
  exact (he2 ▸ (hs.1 e he)).1

theorem StoreInv_travelToPosition (s : GameState) (pid : String)
    (target : Position) (hs : StoreInv s) :
    StoreInv (stepResultState (travelToPosition s pid target) s) := by
  unfold travelToPosition
  cases hgp : getProbe s pid with
  | none => exact hs
  | some probe =>
    dsimp only
    by_cases hE : probe.resources.energy <
        ((⌈calculateDistance probe.position target * 2⌉ : ℤ) : ℚ)
    · rw [if_pos hE]
      exact hs
    · rw [if_neg hE]
      have hpinv := ProbeInv_of_getProbe s pid probe hs hgp
      refine StoreInv_updateProbe _ _ _
        (StoreInv_addProbeExperience _ _ _
          (StoreInv_updateProbe _ _ _ hs ?_)) (fun p hp => ⟨hp.1, hp.2⟩)
      intro p hp
      refine ⟨⟨?_, ?_, ?_, ?_, ?_⟩, hp.2⟩
      · exact sub_nonneg.mpr (not_lt.mp hE)
      · simpa [subtractResources] using hpinv.1.2.1
      · simpa [subtractResources] using hpinv.1.2.2.1
      · simpa [subtractResources] using hpinv.1.2.2.2.1
      · simpa [subtractResources] using hpinv.1.2.2.2.2

theorem StoreInv_scanForResources (s : GameState) (pid bid : String)
    (hs : StoreInv s) :
    StoreInv (stepResultState (scanForResources s pid bid) s) := by
  unfold scanForResources
  cases hgp : getProbe s pid with
  | none => exact hs
  | some probe =>
    dsimp only
    cases hgs : getSolarSystem s probe.currentSystemId with
    | none => exact hs
    | some sys =>
      dsimp only
      cases hgb : sys.bodies.find? (fun b => b.id == bid) with
      | none => exact hs
      | some body =>
        dsimp only
        by_cases hR : calculateDistance probe.position body.position >
            (probe.capabilities.sensorRange : ℝ)
        · rw [if_pos hR]
          exact hs
        · rw [if_neg hR]
          exact StoreInv_updateProbe _ _ _
            (StoreInv_addProbeExperience _ _ _
              (StoreInv_updateProbe _ _ _ hs (fun p hp => ⟨hp.1, hp.2⟩)))
            (fun p hp => ⟨hp.1, hp.2⟩)

theorem StoreInv_harvestResources (s : GameState) (pid bid : String)
    (d : ℚ) (hd : 0 ≤ d) (hs : StoreInv s) :
    StoreInv (stepResultState (harvestResources s pid bid d) s) := by
  unfold harvestResources
  cases hgp : getProbe s pid with
  | none => exact hs
  | some probe =>
    dsimp only
    cases hgs : getSolarSystem s probe.currentSystemId with
    | none => exact hs
    | some sys =>
      dsimp only
      cases hgb : sys.bodies.find? (fun b => b.id == bid) with
      | none => exact hs
      | some body =>
        dsimp only
        by_cases h1 : calculateDistance probe.position body.position > 1
        · rw [if_pos h1]
          exact hs
        · rw [if_neg h1]
          by_cases h2 : getTotalResourceAmount probe.resources +
              getTotalResourceAmount (actualHarvestOf
                (probe.capabilities.harvestRate * d) body.resources) >
              probe.capabilities.storageCapacity
          · rw [if_pos h2]
            exact hs
          · rw [if_neg h2]
            have hpinv := ProbeInv_of_getProbe s pid probe hs hgp
            have hsysinv := SystemInv_of_getSolarSystem s
              probe.currentSystemId sys hs hgs
            have hbodyinv : ResourcesNonneg body.resources :=
              hsysinv.2 body (List.mem_of_find?_eq_some hgb)
            have hamount : 0 ≤ probe.capabilities.harvestRate * d :=
              mul_nonneg hpinv.2 hd
            have hminn : ∀ x : ℚ, 0 ≤ x →
                0 ≤ min (probe.capabilities.harvestRate * d) x :=
              fun x hx => le_min hamount hx
            refine StoreInv_updateProbe _ _ _
              (StoreInv_addProbeExperience _ _ _
                (StoreInv_addSolarSystem _ _
                  (StoreInv_updateProbe _ _ _ hs ?_) ?_))
              (fun p hp => ⟨hp.1, hp.2⟩)
            · intro p hp
              refine ⟨⟨?_, ?_, ?_, ?_, ?_⟩, hp.2⟩
              · exact add_nonneg hpinv.1.1 (hminn _ hbodyinv.1)
              · exact add_nonneg hpinv.1.2.1 (hminn _ hbodyinv.2.1)
              · exact add_nonneg hpinv.1.2.2.1 (hminn _ hbodyinv.2.2.1)
              · exact add_nonneg hpinv.1.2.2.2.1 (hminn _ hbodyinv.2.2.2.1)
              · exact add_nonneg hpinv.1.2.2.2.2 (hminn _ hbodyinv.2.2.2.2)
            · refine ⟨hsysinv.1, ?_⟩
              intro b hb
              obtain ⟨b0, hb0, hbeq⟩ := List.mem_map.mp hb
              by_cases hbid : (b0.id == body.id) = true
              · rw [if_pos hbid] at hbeq
                rw [← hbeq]
                exact ⟨sub_nonneg.mpr (min_le_right _ _),
                  sub_nonneg.mpr (min_le_right _ _),
                  sub_nonneg.mpr (min_le_right _ _),
                  sub_nonneg.mpr (min_le_right _ _),
                  sub_nonneg.mpr (min_le_right _ _)⟩
              · rw [if_neg hbid] at hbeq
                exact hbeq ▸ hsysinv.2 b0 hb0

theorem StoreInv_manufactureProbe (s : GameState)
    (pid nm nid : String) (hs : StoreInv s) :
    StoreInv (stepResultState (manufactureProbe s pid nm nid) s) := by
  unfold manufactureProbe
  cases hgp : getProbe s pid with
  | none => exact hs
  | some parent =>
    dsimp only
    cases hcan : canAffordResources parent.resources PROBE_REPLICATION_COST
    · rw [if_pos (by simp)]
      exact hs
    · rw [if_neg (by simp)]
      have hafford := (canAffordResources_iff _ _).mp hcan
      refine StoreInv_updateProbe _ _ _
        (StoreInv_addProbeExperience _ _ _
          (StoreInv_updateProbe _ _ _
            (StoreInv_addProbe _ _
              (StoreInv_updateProbe _ _ _ hs ?_) ?_)
            (fun p hp => ⟨hp.1, hp.2⟩)))
        (fun p hp => ⟨hp.1, hp.2⟩)
      · intro p hp
        refine ⟨⟨?_, ?_, ?_, ?_, ?_⟩, hp.2⟩
        · exact sub_nonneg.mpr hafford.1
        · exact sub_nonneg.mpr hafford.2.1
        · exact sub_nonneg.mpr hafford.2.2.1
        · exact sub_nonneg.mpr hafford.2.2.2.1
        · exact sub_nonneg.mpr hafford.2.2.2.2
      · constructor
        · refine ⟨?_, ?_, ?_, ?_, ?_⟩ <;> norm_num [CHILD_START_RESOURCES]
        · norm_num [BASE_PROBE_CAPABILITIES]

/-- One store mutation performed by an executor, with its parameters.  The
fresh child id of a manufacture call (`uuidv4`) is carried as data. -/
inductive Step where
  | solar : Step
  | travel (probeId : String) (target : Position) : Step
  | scan (probeId targetBodyId : String) : Step
  | harvest (probeId targetBodyId : String) (duration : ℚ) : Step
  | manufacture (probeId newProbeName newProbeId : String) : Step
  | wait (probeId : String) : Step
  | explore (probeId : String) : Step

/-- Input validation enforced by the zod schemas: a harvest duration is
between 1 and 100 cycles. -/
def ValidStep : Step → Prop
  | .harvest _ _ d => 1 ≤ d ∧ d ≤ 100
  | _ => True

noncomputable def applyStep (st : Step) (s : GameState) : GameState :=
  match st with
  | .solar => applySolarCharging s
  | .travel pid target => stepResultState (travelToPosition s pid target) s
  | .scan pid bid => stepResultState (scanForResources s pid bid) s
  | .harvest pid bid d => stepResultState (harvestResources s pid bid d) s
  | .manufacture pid nm nid =>
      stepResultState (manufactureProbe s pid nm nid) s
  | .wait pid => waitAction s pid
  | .explore pid => exploreSystemAction s pid

noncomputable def runSteps (l : List Step) (s : GameState) : GameState :=
  l.foldl (fun acc st => applyStep st acc) s

theorem StoreInv_applyStep (st : Step) (hv : ValidStep st) (s : GameState)
    (hs : StoreInv s) : StoreInv (applyStep st s) := by
  cases st with
  | solar => exact StoreInv_applySolarCharging s hs
  | travel pid target => exact StoreInv_travelToPosition s pid target hs
  | scan pid bid => exact StoreInv_scanForResources s pid bid hs
  | harvest pid bid d =>
    exact StoreInv_harvestResources s pid bid d
      (le_trans (by norm_num) hv.1) hs
  | manufacture pid nm nid => exact StoreInv_manufactureProbe s pid nm nid hs
  | wait pid => exact StoreInv_addProbeExperience s pid "waited" hs
  | explore pid =>
    exact StoreInv_addProbeExperience s pid "explored_system" hs

theorem StoreInv_runSteps (l : List Step) (hv : ∀ st ∈ l, ValidStep st)
    (s : GameState) (hs : StoreInv s) : StoreInv (runSteps l s) := by
  induction l generalizing s with
  | nil => exact hs
  | cons st t ih =>
    rw [runSteps, List.foldl_cons]
    exact ih (fun r hr => hv r (List.mem_cons_of_mem st hr)) _
      (StoreInv_applyStep st (hv st (List.mem_cons_self st t)) s hs)

theorem StoreInv_initializeGameState
    (systemId probeId starId b1 b2 b3 : String) :
    StoreInv (initializeGameState systemId probeId starId b1 b2 b3) := by
  constructor
  · intro e he
    unfold initializeGameState at he
    simp at he
    rw [he]
    refine ⟨⟨?_, ?_, ?_, ?_, ?_⟩, ?_⟩ <;>
      norm_num [BASE_PROBE_CAPABILITIES]
  · intro e he
    unfold initializeGameState at he
    simp at he
    rw [he]
    refine ⟨⟨?_, ?_, ?_, ?_, ?_⟩, ?_⟩
    · norm_num [seedStarResources]
    · norm_num [seedStarResources]
    · norm_num [seedStarResources]
    · norm_num [seedStarResources]
    · norm_num [seedStarResources]
    · intro b hb
      simp at hb
      rcases hb with hb | hb | hb <;> rw [hb] <;>
        refine ⟨?_, ?_, ?_, ?_, ?_⟩ <;>
          norm_num [seedBody1Resources, seedBody2Resources,
            seedBody3Resources]

def AllResourcesNonneg (s : GameState) : Prop :=
  (∀ e ∈ s.probes, ResourcesNonneg e.2.resources) ∧
  (∀ e ∈ s.solarSystems, ResourcesNonneg e.2.star.resources ∧
    ∀ b ∈ e.2.bodies, ResourcesNonneg b.resources)

/-- The resource vector that `travelToPosition` passes to
`subtractResources` (only the energy component is nonzero). -/
def travelCostVector (c : ℚ) : Resources :=
  { energy := c, metal := 0, silicon := 0, hydrogen := 0,
    rare_elements := 0 }

/-- C4: starting from the seed state, after any sequence of validated
executor mutations every resource field of every probe, star and body is
nonnegative; moreover every `subtractResources` site is guarded — the
travel deduction is affordable whenever the energy check passed, and the
harvest deduction from a body is always affordable (it never exceeds the
remaining stock). -/
theorem store_nonneg_invariant (systemId probeId starId b1 b2 b3 : String)
    (l : List Step) (hl : ∀ st ∈ l, ValidStep st) :
    AllResourcesNonneg (runSteps l
      (initializeGameState systemId probeId starId b1 b2 b3)) ∧
    (∀ pid target p, getProbe (runSteps l
        (initializeGameState systemId probeId starId b1 b2 b3)) pid =
          some p →
      ¬ p.resources.energy <
        ((⌈calculateDistance p.position target * 2⌉ : ℤ) : ℚ) →
      canAffordResources p.resources (travelCostVector
        ((⌈calculateDistance p.position target * 2⌉ : ℤ) : ℚ)) = true) ∧
    (∀ (rate d : ℚ) (stock : Resources),
      canAffordResources stock (actualHarvestOf (rate * d) stock) = true) := by
  have hinv := StoreInv_runSteps l hl _
    (StoreInv_initializeGameState systemId probeId starId b1 b2 b3)
  refine ⟨⟨fun e he => (hinv.1 e he).1, fun e he =>
    ⟨(hinv.2 e he).1, (hinv.2 e he).2⟩⟩, ?_, ?_⟩
  · intro pid target p hp hE
    have hpinv := ProbeInv_of_getProbe _ pid p hinv hp
    rw [canAffordResources_iff]
    exact ⟨not_lt.mp hE, by simpa [travelCostVector] using hpinv.1.2.1,
      by simpa [travelCostVector] using hpinv.1.2.2.1,
      by simpa [travelCostVector] using hpinv.1.2.2.2.1,
      by simpa [travelCostVector] using hpinv.1.2.2.2.2⟩
  · intro rate d stock
    rw [canAffordResources_iff]
    exact ⟨min_le_right _ _, min_le_right _ _, min_le_right _ _,
      min_le_right _ _, min_le_right _ _⟩

/-- C4 witness: the empty mutation sequence from a concrete seed. -/
theorem store_nonneg_invariant_witness :
    (∀ st ∈ ([] : List Step), ValidStep st) ∧
    AllResourcesNonneg (runSteps []
      (initializeGameState "s0" "p0" "st0" "b1" "b2" "b3")) :=
  ⟨by simp,
   (store_nonneg_invariant "s0" "p0" "st0" "b1" "b2" "b3" [] (by simp)).1⟩
